import Mathlib

/-!
Verification development for the viteezy-v2 onboarding chatbot core.

The Python source (app/services/chat_service.py, app/services/product_service.py)
is embedded shallowly below: pure helpers become Lean functions, the
`handle_message` turn becomes an explicit state-transition function on the
onboarding state, and external collaborators (Mongo catalog search, LLM
completions, prior-session lookups) are passed in as oracle parameters, as §6 of
the design document describes them.  Text-rendering helpers (prompt builders,
acknowledgment phrasing, recommendation formatting, option lists) never
influence control flow or stored state; they are likewise abstracted as an
explicit `Render` record so that every theorem below holds for every possible
rendering.
-/

namespace Viteezy

/-! ### Python-style string primitives -/

/-- Python's `\w` character class over ASCII text: letters, digits, underscore. -/
def wordChar (c : Char) : Bool := c.isAlphanum || c = '_'

/-- `needle in hay` for Python strings: contiguous substring test. -/
def listInfix (needle : List Char) : List Char → Bool
  | [] => needle.isEmpty
  | c :: rest => needle.isPrefixOf (c :: rest) || listInfix needle rest

/-- Python `sub in s` (substring containment). -/
def pyIn (needle hay : String) : Bool := listInfix needle.data hay.data

/-- Python `s.strip()` (ASCII whitespace).  Implemented over the character
list: the core `String.trim` does not reduce inside the kernel. -/
def pyStrip (s : String) : String :=
  String.mk (((s.data.dropWhile Char.isWhitespace).reverse.dropWhile
    Char.isWhitespace).reverse)

/-- Python `s.lower()` (ASCII). -/
def pyLower (s : String) : String := String.mk (s.data.map Char.toLower)

/-- Python `s.replace(pat, rep)` over character lists: leftmost, non-overlapping.
The fuel (instantiated with the input length by `pyReplace`) makes the recursion
structural; each step consumes at least one character when `pat` is nonempty. -/
def replaceF (pat rep : List Char) : Nat → List Char → List Char
  | _, [] => []
  | 0, l => l
  | fuel + 1, c :: rest =>
    if pat.isPrefixOf (c :: rest) then
      rep ++ replaceF pat rep fuel ((c :: rest).drop pat.length)
    else c :: replaceF pat rep fuel rest

/-- Python `s.replace(pat, rep)` (all our patterns are nonempty). -/
def pyReplace (s pat rep : String) : String :=
  if pat.data.isEmpty then s
  else String.mk (replaceF pat.data rep.data s.data.length s.data)

/-- Python `s.split(sep)` for a nonempty separator, over character lists. -/
def splitOnF (sep : List Char) : Nat → List Char → List Char → List (List Char)
  | _, [], cur => [cur.reverse]
  | 0, l, cur => [cur.reverse ++ l]
  | fuel + 1, c :: rest, cur =>
    if sep.isPrefixOf (c :: rest) then
      cur.reverse :: splitOnF sep fuel ((c :: rest).drop sep.length) []
    else splitOnF sep fuel rest (c :: cur)

/-- Python `s.split(sep)` (nonempty `sep`). -/
def pySplitOn (s sep : String) : List String :=
  (splitOnF sep.data s.data.length s.data []).map String.mk

/-- Split at the first occurrence of `sep`, if any: `(before, after)`. -/
def splitFirst (sep : Char) : List Char → Option (List Char × List Char)
  | [] => none
  | c :: rest =>
    if c = sep then some ([], rest)
    else match splitFirst sep rest with
      | some (a, b) => some (c :: a, b)
      | none => none

/-- Python `s.split(sep, 2)` for a one-character separator. -/
def pySplitMax2 (s : String) (sep : Char) : List String :=
  match splitFirst sep s.data with
  | none => [s]
  | some (a, rest) =>
    match splitFirst sep rest with
    | none => [String.mk a, String.mk rest]
    | some (b, rest2) => [String.mk a, String.mk b, String.mk rest2]

/-- Python `s.isdigit()` over ASCII text. -/
def pyIsDigit (s : String) : Bool := !s.data.isEmpty && s.data.all Char.isDigit

/-- Insertion-ordered deduplication; models building a Python list with an
`if x not in acc` guard (and, for iteration sums, a Python `set`). -/
def dedupAppend (acc : List String) (xs : List String) : List String :=
  xs.foldl (fun a x => if x ∈ a then a else a ++ [x]) acc

/-! ### The regex rewrites used by `_parse_concerns`

`re.sub(r"\s+/+\s*", ",", s)` and `re.sub(r"\s+and\s+", ",", s)` are modelled
as left-to-right scanners over the character list.  A match of either pattern
must begin at a whitespace character, and whether some whitespace character
inside a maximal run starts a match depends only on what follows the run, so
scanning run-by-run reproduces Python's leftmost non-overlapping matching. -/

theorem dropWhileLen (p : α → Bool) (l : List α) : (l.dropWhile p).length ≤ l.length := by
  induction l with
  | nil => simp [List.dropWhile]
  | cons c rest ih =>
    simp only [List.dropWhile]
    split
    · simpa using Nat.le_succ_of_le ih
    · simp

/-- `re.sub(r"\s+/+\s*", ",", ·)`, written with a fuel parameter so that it
is structurally recursive (and hence evaluates inside the kernel).  Every step
consumes at least one character, so any fuel of at least the input length gives
the scanner's true result; `subSlashes` below supplies exactly that. -/
def subSlashesF : Nat → List Char → List Char
  | _, [] => []
  | 0, l => l
  | fuel + 1, c :: rest =>
    if c.isWhitespace then
      match rest.dropWhile Char.isWhitespace with
      | '/' :: r2 =>
        ',' :: subSlashesF fuel ((r2.dropWhile (· = '/')).dropWhile Char.isWhitespace)
      | r1 => (c :: rest.takeWhile Char.isWhitespace) ++ subSlashesF fuel r1
    else c :: subSlashesF fuel rest

def subSlashes (l : List Char) : List Char := subSlashesF l.length l

/-- `re.sub(r"\s+and\s+", ",", ·)`, with the same fuel device. -/
def subAndF : Nat → List Char → List Char
  | _, [] => []
  | 0, l => l
  | fuel + 1, c :: rest =>
    if c.isWhitespace then
      match rest.dropWhile Char.isWhitespace with
      | 'a' :: 'n' :: 'd' :: d :: r3 =>
        if d.isWhitespace then ',' :: subAndF fuel (r3.dropWhile Char.isWhitespace)
        else (c :: rest.takeWhile Char.isWhitespace) ++
          subAndF fuel ('a' :: 'n' :: 'd' :: d :: r3)
      | r1 => (c :: rest.takeWhile Char.isWhitespace) ++ subAndF fuel r1
    else c :: subAndF fuel rest

def subAnd (l : List Char) : List Char := subAndF l.length l

/-- Stable insertion for a descending stable sort: `gt y x` means `y` stays
ahead of `x`; an element is inserted before the first element that does not
strictly precede it, so equal elements keep their original relative order.
Together with `stableSortDesc` this models Python's stable `sorted`/`list.sort`
(with `reverse=True` on a key), and unlike `List.mergeSort` it reduces inside
the kernel. -/
def insertStable (gt : α → α → Bool) (x : α) : List α → List α
  | [] => [x]
  | y :: ys => if gt y x then y :: insertStable gt x ys else x :: y :: ys

/-- Python's stable sort in descending key order. -/
def stableSortDesc (gt : α → α → Bool) (l : List α) : List α :=
  l.foldr (insertStable gt) []

theorem mem_insertStable {gt : α → α → Bool} {x z : α} {l : List α} :
    z ∈ insertStable gt x l ↔ z = x ∨ z ∈ l := by
  induction l with
  | nil => simp [insertStable]
  | cons y ys ih =>
    simp only [insertStable]
    split
    · rw [List.mem_cons, ih, List.mem_cons]
      all_goals tauto
    · rw [List.mem_cons]
      all_goals tauto

theorem mem_stableSortDesc {gt : α → α → Bool} {z : α} {l : List α} :
    z ∈ stableSortDesc gt l ↔ z ∈ l := by
  induction l with
  | nil => simp [stableSortDesc]
  | cons y ys ih =>
    simp only [stableSortDesc, List.foldr_cons] at *
    rw [mem_insertStable, ih, List.mem_cons]

/-! ### Response values

A value stored in the onboarding `responses` dict is a string, a list of
strings (the `concern` field), or a nested dict (the `concern_details`
sub-map).  Response maps are insertion-ordered association lists, with
Python's `d[k] = v` semantics: an existing key keeps its position. -/

inductive Val where
  | s (v : String)
  | l (vs : List String)
  | d (m : List (String × Val))
deriving Repr

/-- The `responses` map (also used as the recommendation `context`). -/
abbrev Resps := List (String × Val)

/-- Python `d.get(k)`. -/
def getVal (R : Resps) (k : String) : Option Val :=
  (R.find? (fun p => p.1 = k)).map (·.2)

/-- Python `d[k] = v`. -/
def insertVal (R : Resps) (k : String) (v : Val) : Resps :=
  match R with
  | [] => [(k, v)]
  | (k', v') :: rest => if k' = k then (k, v) :: rest else (k', v') :: insertVal rest k v

/-- `(d.get(k) or "")` under the source's implicit typing: these keys only ever
hold strings, and Python's falsy values (absence, `""`, `[]`, `{}`) all coerce
to `""`.  (A present non-string truthy value would raise `AttributeError` at
the subsequent `.lower()` in the source; it is likewise mapped to `""`.) -/
def pyStrOr (v : Option Val) : String :=
  match v with
  | some (Val.s s) => s
  | _ => ""

/-- `(responses.get(k) or "")` as used throughout the dialog code. -/
def getStr (R : Resps) (k : String) : String := pyStrOr (getVal R k)

theorem getVal_insertVal_self (R : Resps) (k : String) (v : Val) :
    getVal (insertVal R k v) k = some v := by
  induction R with
  | nil => simp [insertVal, getVal, List.find?]
  | cons p rest ih =>
    obtain ⟨k', v'⟩ := p
    simp only [insertVal]
    split
    · simp [getVal, List.find?]
    · simp only [getVal, List.find?] at *
      split
      · simp_all
      · exact ih

theorem getVal_insertVal_ne (R : Resps) {k k' : String} (v : Val) (h : k' ≠ k) :
    getVal (insertVal R k v) k' = getVal R k' := by
  induction R with
  | nil => simp [insertVal, getVal, List.find?, h, Ne.symm h]
  | cons p rest ih =>
    obtain ⟨k0, v0⟩ := p
    simp only [insertVal]
    split
    · subst ‹k0 = k›
      simp [getVal, List.find?, Ne.symm h]
    · simp only [getVal, List.find?] at *
      split
      · simp_all
      · exact ih

/-! ### Concern taxonomy (`ChatService.CONCERN_SYNONYMS` / `CONCERN_QUESTIONS`) -/

/-- `CONCERN_SYNONYMS`, in source (dict insertion) order. -/
def CONCERN_SYNONYMS : List (String × String) :=
  [("sleep", "sleep"),
   ("stress", "stress"),
   ("energy", "energy"),
   ("stomach", "stomach_intestines"),
   ("stomach & intestines", "stomach_intestines"),
   ("stomach and intestines", "stomach_intestines"),
   ("intestines", "stomach_intestines"),
   ("gut", "stomach_intestines"),
   ("skin", "skin"),
   ("resistance", "resistance"),
   ("immunity", "resistance"),
   ("immune", "resistance"),
   ("immune system", "resistance"),
   ("weight", "weight"),
   ("libido", "libido"),
   ("brain", "brain"),
   ("hair", "hair_nails"),
   ("nails", "hair_nails"),
   ("hair & nails", "hair_nails"),
   ("hair and nails", "hair_nails"),
   ("hair nails", "hair_nails"),
   ("fitness", "fitness"),
   ("hormones", "hormones"),
   ("hormone", "hormones")]

/-- Python dict lookup in `CONCERN_SYNONYMS`. -/
def synLookup (k : String) : Option String :=
  (CONCERN_SYNONYMS.find? (fun p => p.1 = k)).map (·.2)

/-- The canonical concern keys (the values of `CONCERN_SYNONYMS`). -/
def canonicalConcerns : List String :=
  ["sleep", "stress", "energy", "stomach_intestines", "skin", "resistance",
   "weight", "libido", "brain", "hair_nails", "fitness", "hormones"]

theorem synLookup_canonical {k c : String} (h : synLookup k = some c) :
    c ∈ canonicalConcerns := by
  revert h
  unfold synLookup CONCERN_SYNONYMS
  simp only [List.find?]
  repeat' split
  all_goals intro h
  all_goals simp_all [canonicalConcerns]

/-- `sorted(self.CONCERN_SYNONYMS.keys(), key=lambda k: len(k), reverse=True)`. -/
def sortedSynKeys : List String :=
  stableSortDesc (fun a b => b.length < a.length) (CONCERN_SYNONYMS.map (·.1))

/-- `CONCERN_QUESTIONS`: each canonical concern's ordered follow-up question
ids.  (The question prompt texts and display labels are presentation data; see
the `Render` oracle below.) -/
def CONCERN_QUESTIONS : List (String × List String) :=
  [("sleep", ["fall_asleep", "refreshed", "hours"]),
   ("stress", ["busy_level", "after_day", "signals"]),
   ("energy", ["day_load", "end_day", "body_signals"]),
   ("stomach_intestines", ["bowel", "improve", "extra"]),
   ("skin", ["most_days", "notices", "dry"]),
   ("resistance", ["low", "intense_training", "medical_care"]),
   ("weight", ["challenge", "binge", "sleep_hours"]),
   ("hormones", ["cycle", "physical_changes", "emotions"]),
   ("libido", ["level", "sleep_quality", "pressure"]),
   ("brain", ["symptoms", "mood", "improve"]),
   ("hair_nails", ["hair", "nails", "extras"]),
   ("fitness", ["frequency", "training", "priority"])]

def concernQuestionIds (c : String) : List String :=
  ((CONCERN_QUESTIONS.find? (fun p => p.1 = c)).map (·.2)).getD []

/-- The `label` entries of `CONCERN_QUESTIONS` (the same dict, label view). -/
def concernLabels : List (String × String) :=
  [("sleep", "Sleep"), ("stress", "Stress"), ("energy", "Energy"),
   ("stomach_intestines", "Stomach & Intestines"), ("skin", "Skin"),
   ("resistance", "Resistance"), ("weight", "Weight"), ("hormones", "Hormones"),
   ("libido", "Libido"), ("brain", "Brain"), ("hair_nails", "Hair & Nails"),
   ("fitness", "Fitness")]

/-! ### `_extract_concern_tokens` / `_parse_concerns` / `_normalize_concerns` -/

/-- Does synonym key `k` match at the head of `h`, with `\b` word boundaries on
both sides?  (`prev` is the character immediately before the current position;
every synonym key begins and ends with a word character.) -/
def keyMatchesAt (prev : Option Char) (h : List Char) (k : String) : Bool :=
  k.data.isPrefixOf h &&
  (match prev with | none => true | some p => !wordChar p) &&
  (match h.drop k.data.length with | [] => true | c :: _ => !wordChar c)

/-- The scanning loop of `re.finditer` over `\b(key1|key2|...)\b` with keys in
longest-first order, recording each match's canonical concern if not already
recorded (mirroring the `if canonical and canonical not in matches` guard).
Scanning resumes after each match; the fuel parameter (instantiated with the
text length, which every step consumes at least one character of) makes the
recursion structural. -/
def scanTokensF : Nat → Option Char → List Char → List String → List String
  | _, _, [], acc => acc
  | 0, _, _, acc => acc
  | fuel + 1, prev, c :: rest, acc =>
    match sortedSynKeys.find? (fun k => keyMatchesAt prev (c :: rest) k) with
    | some k =>
      let acc' := match synLookup k with
        | some canonical =>
          if canonical = "" then acc
          else if canonical ∈ acc then acc else acc ++ [canonical]
        | none => acc
      scanTokensF fuel (some (k.data.getLastD c)) (rest.drop (k.data.length - 1)) acc'
    | none => scanTokensF fuel (some c) rest acc

/-- `_extract_concern_tokens`. -/
def extract_concern_tokens (text : String) : List String :=
  if text = "" then [] else scanTokensF text.data.length none text.data []

/-- The normalization pipeline at the head of `_parse_concerns` (lowercase,
the three literal replacements, the two regex rewrites, and the separator
unification). -/
def concernNormalize (raw : String) : String :=
  let n0 := pyLower raw
  let n1 := pyReplace n0 "stomach and intestines" "stomach & intestines"
  let n2 := pyReplace n1 "hair and nails" "hair & nails"
  let n3 := pyReplace n2 "hair nails" "hair & nails"
  let n4 := String.mk (subSlashes n3.data)
  let n5 := pyReplace (pyReplace n4 ";" ",") "|" ","
  String.mk (subAnd n5.data)

/-- `[part.strip() for part in normalized.split(",") if part.strip()]`. -/
def concernParts (raw : String) : List String :=
  ((pySplitOn (concernNormalize raw) ",").map pyStrip).filter (fun p => p ≠ "")

/-- One iteration of the selection loop of `_parse_concerns`. -/
def concernSelStep (sel : List String) (part : String) : List String :=
  match synLookup part with
  | some canonical => if canonical ∈ sel then sel else sel ++ [canonical]
  | none =>
    (extract_concern_tokens part).foldl
      (fun s tok => if tok ∈ s then s else s ++ [tok]) sel

def concernSelections (parts : List String) : List String :=
  parts.foldl concernSelStep []

/-- `_parse_concerns`: free text → ordered, deduplicated canonical keys. -/
def parse_concerns (raw : String) : List String :=
  if raw = "" then []
  else if concernSelections (concernParts raw) = [] then
    extract_concern_tokens (concernNormalize raw)
  else concernSelections (concernParts raw)

/-- `_normalize_concerns`: accepts the raw stored value (string or list). -/
def normalize_concerns (v : Option Val) : List String :=
  match v with
  | some (Val.l items) => dedupAppend [] (items.flatMap parse_concerns)
  | some (Val.s s) => parse_concerns s
  | _ => []

example : parse_concerns "Stomach and Intestines, Hair & Nails" =
    ["stomach_intestines", "hair_nails"] := by decide

/-! ### Field keys for per-concern follow-up questions -/

/-- `_concern_field_key`: `f"concern|{concern}|{question_id}"`. -/
def concern_field_key (concern question_id : String) : String :=
  "concern|" ++ concern ++ "|" ++ question_id

/-- `_parse_concern_field`: split `concern|<key>|<qid>` (via `split("|", 2)`). -/
def parse_concern_field (field : String) : Option (String × String) :=
  if "concern|".data.isPrefixOf field.data then
    match pySplitMax2 field '|' with
    | [_, c, q] => some (c, q)
    | _ => none
  else none

/-- `_concern_followup_steps`. -/
def concern_followup_steps (concerns : List String) : List String :=
  concerns.flatMap (fun c => (concernQuestionIds c).map (concern_field_key c))

/-! ### `_ordered_steps`

The Python builds the list by successive `append`/`extend`; the concatenation
below reproduces it segment by segment.  Three remarks on fidelity:
- `responses.get("for_whom") == "me"` never holds for a validated answer (the
  validator normalizes to `"self"`/`"family"`), but the branch is kept as in
  the source; both branches of that `if` produce `["protein"]` when
  `has_previous_sessions` is true, since the email/knowledge/vitamin-count and
  gender appends are guarded by `not has_previous_sessions`.
- `if concerns:` guards the follow-up extension; extending by an empty list is
  written out the same way.
- every `(responses.get(k) or "")` goes through `getStr` (see `pyStrOr`). -/

def forWhomSeg (R : Resps) : List String :=
  if getStr R "for_whom" = "family" then ["family_name", "relation"] else []

def identitySeg (hasPrev : Bool) (R : Resps) : List String :=
  if hasPrev ∧ getStr R "for_whom" = "me" then ["protein"]
  else (if ¬hasPrev then ["email", "knowledge", "vitamin_count"] else [])
    ++ ["protein"] ++ (if ¬hasPrev then ["gender"] else [])

def genderSeg (R : Resps) : List String :=
  if pyLower (getStr R "gender") = "woman" ∨ pyLower (getStr R "gender") = "female" ∨
      pyLower (getStr R "gender") = "gender neutral" then
    "conceive" :: (if pyLower (getStr R "conceive") = "yes" then ["situation"] else [])
  else if pyLower (getStr R "gender") = "male" then ["children"] else []

def concernSeg (R : Resps) : List String :=
  if (normalize_concerns (getVal R "concern")).isEmpty then []
  else concern_followup_steps (normalize_concerns (getVal R "concern"))

def eatingSeg (R : Resps) : List String :=
  if ¬(pyLower (getStr R "eating_habits") = "vegetarian" ∨
      pyLower (getStr R "eating_habits") = "vegan") then ["meat_intake", "fish_intake"]
  else []

def alcoholSeg (R : Resps) : List String :=
  if pyLower (getStr R "drinks_alcohol") = "yes" ∨ pyLower (getStr R "drinks_alcohol") = "y" ∨
      pyLower (getStr R "drinks_alcohol") = "yeah" ∨ pyLower (getStr R "drinks_alcohol") = "yep" then
    ["alcohol_daily", "alcohol_weekly"]
  else []

/-- `_ordered_steps(responses, has_previous_sessions, should_ask_previous_concern_followup)`. -/
def ordered_steps (R : Resps) (hasPrev shouldAsk : Bool) : List String :=
  (if ¬hasPrev then ["name"] else [])
  ++ ["for_whom"] ++ forWhomSeg R ++ ["age"]
  ++ identitySeg hasPrev R
  ++ genderSeg R
  ++ ["concern"] ++ concernSeg R
  ++ ["lifestyle_status", "fruit_intake", "vegetable_intake", "dairy_intake",
      "fiber_intake", "protein_intake", "eating_habits"]
  ++ eatingSeg R
  ++ ["drinks_alcohol"] ++ alcoholSeg R
  ++ ["coffee_intake", "smokes"]
  ++ ["allergies", "dietary_preferences", "sunlight_exposure", "iron_advised",
      "ayurveda_view", "new_product_attitude"]
  ++ (if shouldAsk then ["previous_concern_followup"] else [])
  ++ ["medical_treatment"]

example : ordered_steps [("gender", Val.s "female"), ("conceive", Val.s "no"),
    ("concern", Val.l ["sleep"])] false false =
    ["name", "for_whom", "age", "email", "knowledge", "vitamin_count", "protein",
     "gender", "conceive", "concern",
     "concern|sleep|fall_asleep", "concern|sleep|refreshed", "concern|sleep|hours",
     "lifestyle_status", "fruit_intake", "vegetable_intake", "dairy_intake",
     "fiber_intake", "protein_intake", "eating_habits", "meat_intake", "fish_intake",
     "drinks_alcohol", "coffee_intake", "smokes",
     "allergies", "dietary_preferences", "sunlight_exposure", "iron_advised",
     "ayurveda_view", "new_product_attitude", "medical_treatment"] := by decide

example : parse_concerns "I struggle with sleep/stress" = ["sleep", "stress"] := by decide

example : parse_concerns "gut and skin" = ["stomach_intestines", "skin"] := by decide

example : parse_concerns "stomach_intestines" = [] := by decide

/-! ### Shape lemmas about `ordered_steps` -/

theorem concern_field_key_take8 (c q : String) :
    (concern_field_key c q).data.take 8 = "concern|".data := by
  obtain ⟨cl⟩ := c
  obtain ⟨ql⟩ := q
  rfl

theorem take8_of_mem_concern_followup {cs : List String} {x : String}
    (h : x ∈ concern_followup_steps cs) : x.data.take 8 = "concern|".data := by
  simp only [concern_followup_steps, List.mem_flatMap, List.mem_map] at h
  obtain ⟨c, _, q, _, rfl⟩ := h
  exact concern_field_key_take8 c q

theorem mem_forWhomSeg {x : String} {R : Resps} (h : x ∈ forWhomSeg R) :
    x ∈ ["family_name", "relation"] := by
  unfold forWhomSeg at h
  split at h <;> simp_all

theorem mem_identitySeg {x : String} {hasPrev : Bool} {R : Resps}
    (h : x ∈ identitySeg hasPrev R) :
    x ∈ ["email", "knowledge", "vitamin_count", "protein", "gender"] := by
  unfold identitySeg at h
  split at h
  · simp_all
  · simp only [List.mem_append] at h
    rcases h with (h | h) | h
    · split at h <;> simp_all <;> tauto
    · simp_all
    · split at h <;> simp_all <;> tauto

theorem mem_genderSeg {x : String} {R : Resps} (h : x ∈ genderSeg R) :
    x ∈ ["conceive", "situation", "children"] := by
  unfold genderSeg at h
  split at h
  · simp only [List.mem_cons] at h
    rcases h with h | h
    · simp [h]
    · split at h <;> simp_all
  · split at h <;> simp_all

theorem mem_concernSeg {x : String} {R : Resps} (h : x ∈ concernSeg R) :
    x.data.take 8 = "concern|".data := by
  unfold concernSeg at h
  split at h
  · simp_all
  · exact take8_of_mem_concern_followup h

theorem mem_eatingSeg {x : String} {R : Resps} (h : x ∈ eatingSeg R) :
    x ∈ ["meat_intake", "fish_intake"] := by
  unfold eatingSeg at h
  split at h <;> simp_all

theorem mem_alcoholSeg {x : String} {R : Resps} (h : x ∈ alcoholSeg R) :
    x ∈ ["alcohol_daily", "alcohol_weekly"] := by
  unfold alcoholSeg at h
  split at h <;> simp_all

/-- C7 helper: with a vegetarian/vegan `eating_habits` answer the meat/fish
segment is empty. -/
theorem eatingSeg_empty_of_veg {R : Resps}
    (h : getVal R "eating_habits" = some (Val.s "vegan") ∨
         getVal R "eating_habits" = some (Val.s "vegetarian")) :
    eatingSeg R = [] := by
  unfold eatingSeg
  rcases h with h | h <;> rw [getStr, h] <;> decide

/-- C7 — Branch removal: when `eating_habits` is `"vegan"` (and likewise
`"vegetarian"`), `_ordered_steps` contains neither `meat_intake` nor
`fish_intake`, for any other responses and any flag values. -/
theorem claim_C7_branch_removal (R : Resps) (hasPrev shouldAsk : Bool)
    (h : getVal R "eating_habits" = some (Val.s "vegan") ∨
         getVal R "eating_habits" = some (Val.s "vegetarian")) :
    "meat_intake" ∉ ordered_steps R hasPrev shouldAsk ∧
    "fish_intake" ∉ ordered_steps R hasPrev shouldAsk := by
  have heat := eatingSeg_empty_of_veg h
  clear h
  refine ⟨fun hm => ?_, fun hm => ?_⟩ <;>
  · rw [ordered_steps, heat] at hm
    clear heat
    split_ifs at hm
    all_goals simp only [List.append_nil, List.nil_append, List.mem_append] at hm
    all_goals casesm* _ ∨ _
    all_goals first
      | (exact absurd (mem_forWhomSeg (by assumption)) (by decide))
      | (exact absurd (mem_identitySeg (by assumption)) (by decide))
      | (exact absurd (mem_genderSeg (by assumption)) (by decide))
      | (exact absurd (mem_alcoholSeg (by assumption)) (by decide))
      | (exact absurd (mem_concernSeg (by assumption)) (by decide))
      | simp_all

/-- Closed witness for `claim_C7_branch_removal` at a concrete response map. -/
theorem claim_C7_branch_removal_witness :
    getVal [("eating_habits", Val.s "vegan")] "eating_habits" = some (Val.s "vegan") ∧
    "meat_intake" ∉ ordered_steps [("eating_habits", Val.s "vegan")] false false ∧
    "fish_intake" ∉ ordered_steps [("eating_habits", Val.s "vegan")] false false := by
  refine ⟨rfl, ?_, ?_⟩
  · exact (claim_C7_branch_removal [("eating_habits", Val.s "vegan")] false false
      (Or.inl rfl)).1
  · exact (claim_C7_branch_removal [("eating_habits", Val.s "vegan")] false false
      (Or.inl rfl)).2

/-! ### C8: `_parse_concerns` produces deduplicated canonical keys -/

theorem nodup_guardFold {sel : List String} {toks : List String} (h : sel.Nodup) :
    (toks.foldl (fun s tok => if tok ∈ s then s else s ++ [tok]) sel).Nodup := by
  induction toks generalizing sel with
  | nil => exact h
  | cons t ts ih =>
    simp only [List.foldl_cons]
    split
    · exact ih h
    · exact ih (by simp [List.nodup_append, h, *])

theorem mem_guardFold {sel toks : List String} {x : String}
    (h : x ∈ toks.foldl (fun s tok => if tok ∈ s then s else s ++ [tok]) sel) :
    x ∈ sel ∨ x ∈ toks := by
  induction toks generalizing sel with
  | nil => exact Or.inl h
  | cons t ts ih =>
    simp only [List.foldl_cons] at h
    split at h
    · rcases ih h with h' | h'
      · exact Or.inl h'
      · exact Or.inr (List.mem_cons_of_mem _ h')
    · rcases ih h with h' | h'
      · rcases List.mem_append.mp h' with h'' | h''
        · exact Or.inl h''
        · rw [List.mem_singleton] at h''
          exact Or.inr (h'' ▸ List.mem_cons_self t ts)
      · exact Or.inr (List.mem_cons_of_mem _ h')

theorem scanTokensF_nodup {fuel : Nat} {prev : Option Char} {l : List Char}
    {acc : List String} (h : acc.Nodup) : (scanTokensF fuel prev l acc).Nodup := by
  induction fuel generalizing prev l acc with
  | zero => cases l <;> simpa [scanTokensF]
  | succ fuel ih =>
    cases l with
    | nil => simpa [scanTokensF]
    | cons c rest =>
      rw [scanTokensF]
      split
      · apply ih
        split
        · split
          · exact h
          · split
            · exact h
            · simp [List.nodup_append, h, *]
        · exact h
      · exact ih h

theorem scanTokensF_mem {fuel : Nat} {prev : Option Char} {l : List Char}
    {acc : List String} {x : String} (h : x ∈ scanTokensF fuel prev l acc) :
    x ∈ acc ∨ x ∈ canonicalConcerns := by
  induction fuel generalizing prev l acc with
  | zero => cases l <;> simp_all [scanTokensF]
  | succ fuel ih =>
    cases l with
    | nil => simp_all [scanTokensF]
    | cons c rest =>
      rw [scanTokensF] at h
      split at h
      · rcases ih h with h' | h'
        · revert h'
          split
          · split
            · exact fun h' => Or.inl h'
            · split
              · exact fun h' => Or.inl h'
              · intro h'
                rcases List.mem_append.mp h' with h'' | h''
                · exact Or.inl h''
                · rw [List.mem_singleton] at h''
                  subst h''
                  exact Or.inr (synLookup_canonical (by assumption))
          · exact fun h' => Or.inl h'
        · exact Or.inr h'
      · exact ih h

theorem extract_concern_tokens_nodup (text : String) :
    (extract_concern_tokens text).Nodup := by
  unfold extract_concern_tokens
  split
  · simp
  · exact scanTokensF_nodup List.nodup_nil

theorem extract_concern_tokens_canonical {text : String} {x : String}
    (h : x ∈ extract_concern_tokens text) : x ∈ canonicalConcerns := by
  unfold extract_concern_tokens at h
  split at h
  · simp at h
  · rcases scanTokensF_mem h with h' | h'
    · simp at h'
    · exact h'

theorem concernSelections_nodup {parts : List String} {sel : List String}
    (h : sel.Nodup) : (parts.foldl concernSelStep sel).Nodup := by
  induction parts generalizing sel with
  | nil => exact h
  | cons p ps ih =>
    simp only [List.foldl_cons]
    apply ih
    rcases hsyn : synLookup p with _ | c
    · simp only [concernSelStep, hsyn]
      exact nodup_guardFold h
    · simp only [concernSelStep, hsyn]
      split
      · exact h
      · simp [List.nodup_append, h, *]

theorem concernSelections_mem {parts : List String} {sel : List String} {x : String}
    (h : x ∈ parts.foldl concernSelStep sel) : x ∈ sel ∨ x ∈ canonicalConcerns := by
  induction parts generalizing sel with
  | nil => exact Or.inl h
  | cons p ps ih =>
    simp only [List.foldl_cons] at h
    rcases ih h with h' | h'
    · rcases hsyn : synLookup p with _ | c
      · simp only [concernSelStep, hsyn] at h'
        rcases mem_guardFold h' with h'' | h''
        · exact Or.inl h''
        · exact Or.inr (extract_concern_tokens_canonical h'')
      · simp only [concernSelStep, hsyn] at h'
        split at h'
        · exact Or.inl h'
        · rcases List.mem_append.mp h' with h'' | h''
          · exact Or.inl h''
          · rw [List.mem_singleton] at h''
            subst h''
            exact Or.inr (synLookup_canonical hsyn)
    · exact Or.inr h'

/-- C8 — Concern parsing: the canonical example evaluates as stated, and in
general `_parse_concerns` returns canonical concern keys without duplicates
(first-appearance order is preserved by construction: every insertion appends
at the end and is guarded by a membership test). -/
theorem claim_C8_concern_parsing :
    parse_concerns "Stomach and Intestines, Hair & Nails" =
      ["stomach_intestines", "hair_nails"] ∧
    ∀ raw : String, (parse_concerns raw).Nodup ∧
      ∀ x ∈ parse_concerns raw, x ∈ canonicalConcerns := by
  refine ⟨by decide, fun raw => ⟨?_, fun x hx => ?_⟩⟩
  · unfold parse_concerns
    split
    · simp
    · split
      · exact extract_concern_tokens_nodup _
      · exact concernSelections_nodup List.nodup_nil
  · unfold parse_concerns at hx
    split at hx
    · simp at hx
    · split at hx
      · exact extract_concern_tokens_canonical hx
      · rcases concernSelections_mem hx with h' | h'
        · simp at h'
        · exact h'

/-- Closed witness for the quantified part of `claim_C8_concern_parsing`. -/
theorem claim_C8_concern_parsing_witness :
    ("skin" ∈ parse_concerns "gut and skin") ∧ "skin" ∈ canonicalConcerns :=
  ⟨by decide, (claim_C8_concern_parsing.2 "gut and skin").2 "skin" (by decide)⟩

/-! ### `_validate_response` and `_save_response`

The validator is modelled branch by branch in source order.  The only
presentation dependency is the error text for an empty concern follow-up
answer, which interpolates `_question_by_key`; that helper is supplied as the
oracle parameter `qbk`.  The unused local `options` set in the `concern`
branch of the source is omitted (it is dead code). -/

/-- Python `str(n)` for a natural number (fuel-structural digit expansion). -/
def natToStrF : Nat → Nat → List Char → List Char
  | 0, n, acc => Char.ofNat (48 + n % 10) :: acc
  | fuel + 1, n, acc =>
    if n < 10 then Char.ofNat (48 + n) :: acc
    else natToStrF fuel (n / 10) (Char.ofNat (48 + n % 10) :: acc)

def natToStr (n : Nat) : String := String.mk (natToStrF n n [])

/-- `int(s)` for an all-digit string. -/
def digitsToNat (l : List Char) : Nat :=
  l.foldl (fun a c => a * 10 + (c.toNat - 48)) 0

/-- Python `s.title()` over ASCII text. -/
def pyTitleF : Bool → List Char → List Char
  | _, [] => []
  | prevCased, c :: rest =>
    (if c.isAlpha ∧ ¬prevCased then c.toUpper
     else if c.isAlpha then c.toLower else c) :: pyTitleF c.isAlpha rest

def pyTitle (s : String) : String := String.mk (pyTitleF false s.data)

/-- `(d.get(k) or default)` for a string-valued key. -/
def pyStrOrD (v : Option Val) (d : String) : String :=
  match v with
  | some (Val.s s) => if s = "" then d else s
  | _ => d

/-- Python `x or default` on an optional string. -/
def pyOptStrOr (o : Option String) (d : String) : String :=
  match o with
  | some q => if q = "" then d else q
  | none => d

/-- Python dict lookup in a literal table. -/
def lookupTable (t : List (String × String)) (k : String) : Option String :=
  (t.find? (fun p => p.1 = k)).map (·.2)

/-- `", ".join(parts)`. -/
def joinSep (sep : String) : List String → String
  | [] => ""
  | [x] => x
  | x :: rest => x ++ sep ++ joinSep sep rest

def forWhomAllowed : List (String × String) :=
  [("me", "self"), ("myself", "self"), ("self", "self"), ("for me", "self"),
   ("no", "self"), ("family", "family"), ("family member", "family"),
   ("for family", "family"), ("for my family", "family"), ("friend", "family"),
   ("partner", "family"), ("spouse", "family"), ("yes", "family")]

def knowledgeAllowed : List (String × String) :=
  [("well informed", "well informed"), ("well-informed", "well informed"),
   ("informed", "well informed"), ("curious", "curious"),
   ("skeptical", "skeptical"), ("sceptical", "skeptical")]

def vitaminCountAllowed : List (String × String) :=
  [("no", "0"), ("none", "0"), ("0", "0"), ("1", "1 to 3"), ("2", "1 to 3"),
   ("3", "1 to 3"), ("1 to 3", "1 to 3"), ("1-3", "1 to 3"), ("4", "4+"),
   ("4+", "4+"), ("5", "4+"), ("5+", "4+"), ("many", "4+")]

def genderAllowed : List (String × String) :=
  [("male", "male"), ("man", "male"), ("m", "male"), ("woman", "female"),
   ("women", "female"), ("female", "female"), ("f", "female"),
   ("gender neutral", "gender neutral"), ("neutral", "gender neutral"),
   ("non-binary", "gender neutral"), ("nonbinary", "gender neutral")]

def situationAllowed : List (String × String) :=
  [("to get pregnant in the next 2 years", "planning (2 years)"),
   ("planning", "planning (2 years)"), ("next 2 years", "planning (2 years)"),
   ("i am pregnant now", "pregnant"), ("pregnant", "pregnant"),
   ("breastfeeding", "breastfeeding")]

def lifestyleAllowed : List (String × String) :=
  [("been doing well for a long time", "been doing well for a long time"),
   ("doing well", "been doing well for a long time"),
   ("nice on the way", "nice on the way"), ("on the way", "nice on the way"),
   ("ready to start", "ready to start"), ("starting", "ready to start")]

def intakeAllowed : List (String × String) :=
  [("hardly", "hardly"), ("rarely", "hardly"), ("seldom", "hardly"),
   ("one time", "one time"), ("once", "one time"), ("1", "one time"),
   ("twice or more", "twice or more"), ("twice", "twice or more"),
   ("2", "twice or more"), ("more", "twice or more"), ("multiple", "twice or more")]

def eatingAllowed : List (String × String) :=
  [("no preference", "no preference"), ("none", "no preference"),
   ("flexitarian", "flexitarian"), ("vegetarian", "vegetarian"),
   ("veg", "vegetarian"), ("vegan", "vegan")]

def meatFishAllowed : List (String × String) :=
  [("never", "never"), ("no", "never"), ("once or twice", "once or twice"),
   ("once", "once or twice"), ("twice", "once or twice"), ("1-2", "once or twice"),
   ("three times or more", "three times or more"), ("three", "three times or more"),
   ("3", "three times or more"), ("more", "three times or more")]

def allergyAllowed : List (String × String) :=
  [("no", "no"), ("none", "no"), ("milk", "milk"), ("egg", "egg"),
   ("eggs", "egg"), ("fish", "fish"),
   ("shellfish and crustaceans", "shellfish and crustaceans"),
   ("shellfish", "shellfish and crustaceans"),
   ("crustaceans", "shellfish and crustaceans"), ("peanut", "peanut"),
   ("peanuts", "peanut"), ("nuts", "nuts"), ("soy", "soy"), ("gluten", "gluten"),
   ("wheat", "wheat"), ("pollen", "pollen")]

def dietaryAllowed : List (String × String) :=
  [("no preference", "no preference"), ("none", "no preference"),
   ("lactose-free", "lactose-free"), ("lactose free", "lactose-free"),
   ("gluten free", "gluten free"), ("gluten-free", "gluten free"),
   ("paleo", "paleo")]

def ayurvedaAllowed : List (String × String) :=
  [("i am convinced", "i am convinced"), ("convinced", "i am convinced"),
   ("we can learn a lot from ancient medicine", "we can learn a lot from ancient medicine"),
   ("learn from ancient medicine", "we can learn a lot from ancient medicine"),
   ("ancient medicine", "we can learn a lot from ancient medicine"),
   ("i am open to it", "i am open to it"), ("open to it", "i am open to it"),
   ("open", "i am open to it"),
   ("more information needed for an opinion", "more information needed for an opinion"),
   ("need more information", "more information needed for an opinion"),
   ("i am skeptical", "i am skeptical"), ("skeptical", "i am skeptical"),
   ("alternative medicine is nonsense", "alternative medicine is nonsense"),
   ("nonsense", "alternative medicine is nonsense")]

def newProductAllowed : List (String × String) :=
  [("to be the first", "to be the first"), ("first", "to be the first"),
   ("you are at the forefront of new products", "you are at the forefront of new products"),
   ("forefront", "you are at the forefront of new products"),
   ("learn more", "learn more"),
   ("you are cautiously optimistic", "you are cautiously optimistic"),
   ("cautiously optimistic", "you are cautiously optimistic"),
   ("waiting for now", "waiting for now"), ("waiting", "waiting for now"),
   ("scientific research takes time", "scientific research takes time"),
   ("research takes time", "scientific research takes time")]

/-- The body of `_validate_response` on the already-stripped value `val`. -/
def validateVal (qbk : String → String → Resps → Option String)
    (field : String) (val : String) (R : Resps) : Bool × Val × String :=
  if field = "name" then
    if val.data.length < 2 then
      (false, Val.s val, "I want to remember you, can you share a name with at least 2 letters? 😊")
    else (true, Val.s val, "")
  else if field = "for_whom" then
    match lookupTable forWhomAllowed (pyLower val) with
    | some v => (true, Val.s v, "")
    | none => (false, Val.s val, "Is this for you or for a family member? Just say 'me' or 'family'.")
  else if field = "family_name" then
    if val.data.length < 2 then
      (false, Val.s val, "Tell me their name with at least 2 letters so I can personalize it. 😊")
    else (true, Val.s val, "")
  else if field = "relation" then
    if val.data.length < 3 then
      (false, Val.s val, "How are you related? (e.g., spouse, parent, sibling, friend)")
    else (true, Val.s val, "")
  else if field = "age" then
    if ¬ pyIsDigit val then
      (false, Val.s val, pyStrOrD (getVal R "name") "friend" ++ ", can you share your age as a number (e.g., 27)?")
    else if digitsToNat val.data ≤ 0 ∨ digitsToNat val.data > 100 then
      (false, Val.s val, pyStrOrD (getVal R "name") "friend" ++ ", that age feels off. Mind giving me a real number between 1 and 100?")
    else (true, Val.s (natToStr (digitsToNat val.data)), "")
  else if field = "protein" then
    if pyLower val = "yes" ∨ pyLower val = "y" ∨ pyLower val = "yeah" ∨
        pyLower val = "yep" ∨ pyLower val = "sure" ∨ pyLower val = "taking" ∨
        pyLower val = "i do" then (true, Val.s "yes", "")
    else if pyLower val = "no" ∨ pyLower val = "n" ∨ pyLower val = "nope" ∨
        pyLower val = "nah" ∨ pyLower val = "not" then (true, Val.s "no", "")
    else (false, Val.s val, pyStrOrD (getVal R "name") "friend" ++ ", just a quick yes or no, are you taking protein powder or shakes right now?")
  else if field = "knowledge" then
    match lookupTable knowledgeAllowed (pyLower val) with
    | some v => (true, Val.s v, "")
    | none => (false, Val.s val, pyStrOrD (getVal R "name") "friend" ++ ", choose one: Well informed, Curious, or Skeptical.")
  else if field = "vitamin_count" then
    match lookupTable vitaminCountAllowed (pyLower val) with
    | some v => (true, Val.s v, "")
    | none => (false, Val.s val, pyStrOrD (getVal R "name") "friend" ++ ", pick one: No, 1 to 3, or 4+.")
  else if field = "gender" then
    match lookupTable genderAllowed (pyLower val) with
    | some v => (true, Val.s v, "")
    | none => (false, Val.s val, pyStrOrD (getVal R "name") "friend" ++ ", choose one: male, woman, or gender neutral.")
  else if field = "conceive" then
    if pyLower val = "yes" ∨ pyLower val = "y" ∨ pyLower val = "yeah" ∨
        pyLower val = "yep" then (true, Val.s "yes", "")
    else if pyLower val = "no" ∨ pyLower val = "n" ∨ pyLower val = "nope" ∨
        pyLower val = "nah" then (true, Val.s "no", "")
    else (false, Val.s val, pyStrOrD (getVal R "name") "friend" ++ ", a simple yes or no works, are you pregnant or breastfeeding?")
  else if field = "situation" then
    match lookupTable situationAllowed (pyLower val) with
    | some v => (true, Val.s v, "")
    | none => (false, Val.s val, pyStrOrD (getVal R "name") "friend" ++ ", pick one: To get pregnant in the next 2 years / I am pregnant now / Breastfeeding.")
  else if field = "children" then
    if pyLower val = "yes" ∨ pyLower val = "y" ∨ pyLower val = "yeah" ∨
        pyLower val = "yep" then (true, Val.s "yes", "")
    else if pyLower val = "no" ∨ pyLower val = "n" ∨ pyLower val = "nope" ∨
        pyLower val = "nah" then (true, Val.s "no", "")
    else (false, Val.s val, pyStrOrD (getVal R "name") "friend" ++ ", just a yes or no, planning for kids in the coming years?")
  else if field = "email" then
    if pyIn "@" val ∧ pyIn "." ((pySplitOn val "@").getLastD "") ∧ val.data.length > 5 then
      (true, Val.s val, "")
    else (false, Val.s val, pyStrOrD (getVal R "name") "friend" ++ ", could you share a real email like youremail@example.com? Promise I’ll keep it safe.")
  else if field = "concern" then
    if parse_concerns val ≠ [] then (true, Val.l (parse_concerns val), "")
    else (false, Val.s val, pyStrOrD (getVal R "name") "friend" ++ ", pick one or a few from: Sleep / Stress / Energy / Stomach & Intestines / Skin / Resistance / Weight / Libido / Brain / Hair & nails / Fitness (Hormones if relevant). You can separate choices with commas.")
  else
    match parse_concern_field field with
    | some (ck, qid) =>
      if val = "" then
        (false, Val.s val, "Quick one about " ++
          pyOptStrOr (lookupTable concernLabels ck) (pyTitle ck) ++ ": " ++
          pyOptStrOr (qbk ck qid R) "can you share a short answer?")
      else (true, Val.s val, "")
    | none =>
      if field = "lifestyle_status" then
        match lookupTable lifestyleAllowed (pyLower val) with
        | some v => (true, Val.s v, "")
        | none => (false, Val.s val, pyStrOrD (getVal R "name") "friend" ++ ", pick one: Been doing well for a long time / Nice on the way / Ready to start")
      else if field = "fruit_intake" ∨ field = "vegetable_intake" ∨
          field = "dairy_intake" ∨ field = "fiber_intake" ∨ field = "protein_intake" then
        match lookupTable intakeAllowed (pyLower val) with
        | some v => (true, Val.s v, "")
        | none => (false, Val.s val, pyStrOrD (getVal R "name") "friend" ++ ", pick one: Hardly / One time / Twice or more")
      else if field = "eating_habits" then
        match lookupTable eatingAllowed (pyLower val) with
        | some v => (true, Val.s v, "")
        | none => (false, Val.s val, pyStrOrD (getVal R "name") "friend" ++ ", pick one: No preference / Flexitarian / Vegetarian / Vegan")
      else if field = "meat_intake" ∨ field = "fish_intake" then
        match lookupTable meatFishAllowed (pyLower val) with
        | some v => (true, Val.s v, "")
        | none => (false, Val.s val, pyStrOrD (getVal R "name") "friend" ++ ", pick one: Never / Once or twice / Three times or more")
      else if field = "drinks_alcohol" ∨ field = "alcohol_daily" ∨
          field = "alcohol_weekly" ∨ field = "coffee_intake" ∨ field = "smokes" ∨
          field = "sunlight_exposure" ∨ field = "iron_advised" ∨
          field = "medical_treatment" ∨ field = "previous_concern_followup" then
        if pyLower val = "yes" ∨ pyLower val = "y" ∨ pyLower val = "yeah" ∨
            pyLower val = "yep" ∨ pyLower val = "sure" then (true, Val.s "yes", "")
        else if pyLower val = "no" ∨ pyLower val = "n" ∨ pyLower val = "nope" ∨
            pyLower val = "nah" ∨ pyLower val = "not" then (true, Val.s "no", "")
        else (false, Val.s val, pyStrOrD (getVal R "name") "friend" ++ ", just a quick yes or no works here.")
      else if field = "allergies" then
        if pyIn "," (pyLower val) then
          if ((pySplitOn (pyLower val) ",").map pyStrip).filterMap
              (lookupTable allergyAllowed) ≠ [] then
            (true, Val.s (joinSep ", " (((pySplitOn (pyLower val) ",").map pyStrip).filterMap
              (lookupTable allergyAllowed))), "")
          else match lookupTable allergyAllowed (pyLower val) with
            | some v => (true, Val.s v, "")
            | none => (false, Val.s val, pyStrOrD (getVal R "name") "friend" ++ ", pick from: No / Milk / Egg / Fish / Shellfish and crustaceans / Peanut / Nuts / Soy / Gluten / Wheat / Pollen")
        else match lookupTable allergyAllowed (pyLower val) with
          | some v => (true, Val.s v, "")
          | none => (false, Val.s val, pyStrOrD (getVal R "name") "friend" ++ ", pick from: No / Milk / Egg / Fish / Shellfish and crustaceans / Peanut / Nuts / Soy / Gluten / Wheat / Pollen")
      else if field = "dietary_preferences" then
        match lookupTable dietaryAllowed (pyLower val) with
        | some v => (true, Val.s v, "")
        | none => (false, Val.s val, pyStrOrD (getVal R "name") "friend" ++ ", pick one: No preference / Lactose-free / Gluten free / Paleo")
      else if field = "ayurveda_view" then
        match lookupTable ayurvedaAllowed (pyLower val) with
        | some v => (true, Val.s v, "")
        | none => (false, Val.s val, pyStrOrD (getVal R "name") "friend" ++ ", pick one: I am convinced / We can learn a lot from ancient medicine / I am open to it / More information needed for an opinion / I am skeptical / Alternative medicine is nonsense")
      else if field = "new_product_attitude" then
        match lookupTable newProductAllowed (pyLower val) with
        | some v => (true, Val.s v, "")
        | none => (false, Val.s val, pyStrOrD (getVal R "name") "friend" ++ ", pick one: To be the first / You are at the forefront of new products / Learn more / You are cautiously optimistic / Waiting for now / Scientific research takes time")
      else (true, Val.s val, "")

/-- `_validate_response(field, raw_value, responses)`; strips the raw value
first, exactly as the source does. -/
def validate_response (qbk : String → String → Resps → Option String)
    (field : String) (raw_value : String) (R : Resps) : Bool × Val × String :=
  validateVal qbk field (pyStrip raw_value) R

/-- `responses.setdefault("concern_details", {})` as a read: the current
nested details dict (empty when absent; a non-dict value, which the source
would crash on, is treated as absent). -/
def detailsOf (R : Resps) : Resps :=
  match getVal R "concern_details" with
  | some (Val.d m) => m
  | _ => []

/-- `details.setdefault(concern_key, {})` as a read. -/
def bucketOf (R : Resps) (ck : String) : Resps :=
  match getVal (detailsOf R) ck with
  | some (Val.d b) => b
  | _ => []

/-- `_save_response(field, normalized, responses)`. -/
def save_response (field : String) (normalized : Val) (R : Resps) : Resps :=
  if field = "concern" then
    insertVal R "concern" (Val.l (normalize_concerns (some normalized)))
  else
    match parse_concern_field field with
    | some (ck, qid) =>
      insertVal R "concern_details"
        (Val.d (insertVal (detailsOf R) ck
          (Val.d (insertVal (bucketOf R ck) qid normalized))))
    | none => insertVal R field normalized

example : validate_response (fun _ _ _ => none) "age" " 27 " [] =
    (true, Val.s "27", "") := rfl

example : validate_response (fun _ _ _ => none) "allergies" "Shellfish, Milk" [] =
    (true, Val.s "shellfish and crustaceans, milk", "") := rfl

example : validate_response (fun _ _ _ => none) "concern|sleep|hours" "7+ hours" [] =
    (true, Val.s "7+ hours", "") := rfl

/-! ### C10: fields without an explicit rule are accepted verbatim -/

/-- Every field name the validator handles with an explicit rule. -/
def handledFields : List String :=
  ["name", "for_whom", "family_name", "relation", "age", "protein", "knowledge",
   "vitamin_count", "gender", "conceive", "situation", "children", "email",
   "concern", "lifestyle_status", "fruit_intake", "vegetable_intake",
   "dairy_intake", "fiber_intake", "protein_intake", "eating_habits",
   "meat_intake", "fish_intake", "drinks_alcohol", "alcohol_daily",
   "alcohol_weekly", "coffee_intake", "smokes", "sunlight_exposure",
   "iron_advised", "medical_treatment", "previous_concern_followup",
   "allergies", "dietary_preferences", "ayurveda_view", "new_product_attitude"]

theorem validateVal_default (qbk : String → String → Resps → Option String)
    (field val : String) (R : Resps) (hmem : field ∉ handledFields)
    (hpcf : parse_concern_field field = none) :
    validateVal qbk field val R = (true, Val.s val, "") := by
  have h : ∀ w ∈ handledFields, field ≠ w := fun w hw he => hmem (he ▸ hw)
  unfold validateVal
  rw [if_neg (h "name" (by decide)), if_neg (h "for_whom" (by decide)),
      if_neg (h "family_name" (by decide)), if_neg (h "relation" (by decide)),
      if_neg (h "age" (by decide)), if_neg (h "protein" (by decide)),
      if_neg (h "knowledge" (by decide)), if_neg (h "vitamin_count" (by decide)),
      if_neg (h "gender" (by decide)), if_neg (h "conceive" (by decide)),
      if_neg (h "situation" (by decide)), if_neg (h "children" (by decide)),
      if_neg (h "email" (by decide)), if_neg (h "concern" (by decide))]
  simp only [hpcf]
  rw [if_neg (h "lifestyle_status" (by decide)),
      if_neg (show ¬(field = "fruit_intake" ∨ field = "vegetable_intake" ∨
          field = "dairy_intake" ∨ field = "fiber_intake" ∨
          field = "protein_intake") from by
        rintro (rfl | rfl | rfl | rfl | rfl) <;> exact hmem (by decide)),
      if_neg (h "eating_habits" (by decide)),
      if_neg (show ¬(field = "meat_intake" ∨ field = "fish_intake") from by
        rintro (rfl | rfl) <;> exact hmem (by decide)),
      if_neg (show ¬(field = "drinks_alcohol" ∨ field = "alcohol_daily" ∨
          field = "alcohol_weekly" ∨ field = "coffee_intake" ∨ field = "smokes" ∨
          field = "sunlight_exposure" ∨ field = "iron_advised" ∨
          field = "medical_treatment" ∨ field = "previous_concern_followup") from by
        rintro (rfl | rfl | rfl | rfl | rfl | rfl | rfl | rfl | rfl) <;>
          exact hmem (by decide)),
      if_neg (h "allergies" (by decide)),
      if_neg (h "dietary_preferences" (by decide)),
      if_neg (h "ayurveda_view" (by decide)),
      if_neg (h "new_product_attitude" (by decide))]

theorem validateVal_concern_field (qbk : String → String → Resps → Option String)
    (field ck qid val : String) (R : Resps)
    (hpcf : parse_concern_field field = some (ck, qid)) (hval : val ≠ "") :
    validateVal qbk field val R = (true, Val.s val, "") := by
  have hpre : "concern|".data.isPrefixOf field.data = true := by
    by_contra hh
    rw [parse_concern_field, if_neg (by simpa using hh)] at hpcf
    exact Option.noConfusion hpcf
  have hne : ∀ w : String, "concern|".data.isPrefixOf w.data = false → field ≠ w := by
    intro w hw he
    subst he
    rw [hw] at hpre
    exact Bool.noConfusion hpre
  unfold validateVal
  rw [if_neg (hne "name" (by decide)), if_neg (hne "for_whom" (by decide)),
      if_neg (hne "family_name" (by decide)), if_neg (hne "relation" (by decide)),
      if_neg (hne "age" (by decide)), if_neg (hne "protein" (by decide)),
      if_neg (hne "knowledge" (by decide)), if_neg (hne "vitamin_count" (by decide)),
      if_neg (hne "gender" (by decide)), if_neg (hne "conceive" (by decide)),
      if_neg (hne "situation" (by decide)), if_neg (hne "children" (by decide)),
      if_neg (hne "email" (by decide)), if_neg (hne "concern" (by decide))]
  simp only [hpcf]
  rw [if_neg hval]

/-- C10 — Default acceptance: a field outside the validator's explicit rule
set is accepted as `(True, stripped value, "")` for every input, and a
`concern|<concern>|<questionId>` follow-up field accepts any non-empty
stripped answer verbatim — validation failure is impossible for such fields
and follow-up answers are stored unnormalized. -/
theorem claim_C10_default_validation (qbk : String → String → Resps → Option String) :
    (∀ field raw R, field ∉ handledFields → parse_concern_field field = none →
      validate_response qbk field raw R = (true, Val.s (pyStrip raw), "")) ∧
    (∀ field ck qid raw R, parse_concern_field field = some (ck, qid) →
      pyStrip raw ≠ "" →
      validate_response qbk field raw R = (true, Val.s (pyStrip raw), "")) := by
  constructor
  · intro field raw R hmem hpcf
    exact validateVal_default qbk field (pyStrip raw) R hmem hpcf
  · intro field ck qid raw R hpcf hval
    exact validateVal_concern_field qbk field ck qid (pyStrip raw) R hpcf hval

/-- Closed witness for `claim_C10_default_validation`: an unknown field name
and a concern follow-up field, both at concrete inputs. -/
theorem claim_C10_default_validation_witness :
    ("favorite_color" ∉ handledFields) ∧
    parse_concern_field "favorite_color" = none ∧
    validate_response (fun _ _ _ => none) "favorite_color" "  blue  " [] =
      (true, Val.s "blue", "") ∧
    parse_concern_field "concern|sleep|hours" = some ("sleep", "hours") ∧
    validate_response (fun _ _ _ => none) "concern|sleep|hours" " 7+ " [] =
      (true, Val.s "7+", "") :=
  ⟨by decide, by decide,
   (claim_C10_default_validation (fun _ _ _ => none)).1 "favorite_color"
     "  blue  " [] (by decide) (by decide),
   by decide,
   (claim_C10_default_validation (fun _ _ _ => none)).2 "concern|sleep|hours"
     "sleep" "hours" " 7+ " [] (by decide) (by decide)⟩

/-! ### C3: where concern follow-up answers are stored -/

theorem str_data_append (a b : String) : (a ++ b).data = a.data ++ b.data := by
  obtain ⟨a⟩ := a
  obtain ⟨b⟩ := b
  rfl

theorem listInfix_singleton (x : Char) (l : List Char) :
    listInfix [x] l = l.contains x := by
  induction l with
  | nil => rfl
  | cons c rest ih =>
    simp only [listInfix, List.isPrefixOf, List.contains_cons, ih, Bool.and_true]

theorem splitFirst_append (sep : Char) (a b : List Char) (h : sep ∉ a) :
    splitFirst sep (a ++ sep :: b) = some (a, b) := by
  induction a with
  | nil => simp [splitFirst]
  | cons c rest ih =>
    have hc : ¬(c = sep) := fun he => h (he ▸ List.mem_cons_self c rest)
    have hr : sep ∉ rest := fun hm => h (List.mem_cons_of_mem c hm)
    simp only [List.cons_append, splitFirst, if_neg hc, List.append_eq]
    rw [ih hr]

theorem cfk_data (c q : String) :
    (concern_field_key c q).data = "concern".data ++ '|' :: (c.data ++ '|' :: q.data) := by
  obtain ⟨cl⟩ := c
  obtain ⟨ql⟩ := q
  simp only [concern_field_key, str_data_append]
  show ((['c','o','n','c','e','r','n','|'] ++ cl) ++ ['|']) ++ ql = _
  simp

theorem prefixOf_self_append (a b : List Char) : a.isPrefixOf (a ++ b) = true := by
  induction a with
  | nil => simp [List.isPrefixOf]
  | cons c rest ih => simpa [List.isPrefixOf] using ih

theorem parse_concern_field_key (c q : String) (hc : pyIn "|" c = false) :
    parse_concern_field (concern_field_key c q) = some (c, q) := by
  have hc' : '|' ∉ c.data := by
    rw [pyIn, listInfix_singleton] at hc
    simpa using hc
  have hdata := cfk_data c q
  have hpre : "concern|".data.isPrefixOf (concern_field_key c q).data = true := by
    rw [hdata]
    show ("concern".data ++ ['|']).isPrefixOf
      ("concern".data ++ '|' :: (c.data ++ '|' :: q.data)) = true
    rw [show "concern".data ++ '|' :: (c.data ++ '|' :: q.data) =
      ("concern".data ++ ['|']) ++ (c.data ++ '|' :: q.data) by simp]
    exact prefixOf_self_append _ _
  have hsplit1 : splitFirst '|' (concern_field_key c q).data =
      some ("concern".data, c.data ++ '|' :: q.data) := by
    rw [hdata]
    exact splitFirst_append '|' "concern".data _ (by decide)
  have hsplit2 : splitFirst '|' (c.data ++ '|' :: q.data) = some (c.data, q.data) :=
    splitFirst_append '|' c.data q.data hc'
  rw [parse_concern_field, if_pos hpre]
  simp only [pySplitMax2, hsplit1, hsplit2]

/-- Read the stored answer of follow-up question `q` of concern `c` from the
nested `concern_details` structure. -/
def getConcernDetail (R : Resps) (c q : String) : Option Val :=
  match getVal R "concern_details" with
  | some (Val.d m) =>
    match getVal m c with
    | some (Val.d b) => getVal b q
    | _ => none
  | _ => none

/-- C3 counterexample — the claim as stated is false on the code: saving a
validated follow-up answer does **not** store it in `responses` under the
namespaced `concern|<concern>|<questionId>` key; the key is absent afterwards
and the value lands in the nested `concern_details` map instead. -/
theorem claim_C3_counterexample :
    getVal (save_response "concern|sleep|hours" (Val.s "7+ hours") [])
      "concern|sleep|hours" = none ∧
    save_response "concern|sleep|hours" (Val.s "7+ hours") [] =
      [("concern_details", Val.d [("sleep", Val.d [("hours", Val.s "7+ hours")])])] :=
  ⟨rfl, rfl⟩

theorem cfk_ne_concern (c q : String) : concern_field_key c q ≠ "concern" := by
  intro he
  have := concern_field_key_take8 c q
  rw [he] at this
  exact absurd this (by decide)

theorem save_response_cfk (c q : String) (hc : pyIn "|" c = false) (v : Val)
    (S : Resps) :
    save_response (concern_field_key c q) v S =
      insertVal S "concern_details"
        (Val.d (insertVal (detailsOf S) c
          (Val.d (insertVal (bucketOf S c) q v)))) := by
  rw [save_response, if_neg (cfk_ne_concern c q)]
  simp only [parse_concern_field_key c q hc]

theorem detailsOf_insert (S : Resps) (m : Resps) :
    detailsOf (insertVal S "concern_details" (Val.d m)) = m := by
  rw [detailsOf, getVal_insertVal_self]

/-- C3 amended — saving a validated answer for the follow-up field
`concern|<c>|<q>` (with a pipe-free concern key, as all canonical keys are)
stores the normalized value in the nested `responses["concern_details"][c][q]`
slot, and a later save for any different `(concern, question)` pair never
overwrites it, so answers to follow-ups of different concerns (and to
different questions of one concern) never collide. -/
theorem claim_C3_amended (c q : String) (v : Val) (R : Resps)
    (hc : pyIn "|" c = false) :
    getConcernDetail (save_response (concern_field_key c q) v R) c q = some v ∧
    (∀ c2 q2 v2, pyIn "|" c2 = false → ¬(c2 = c ∧ q2 = q) →
      getConcernDetail
        (save_response (concern_field_key c2 q2) v2
          (save_response (concern_field_key c q) v R)) c q = some v) := by
  constructor
  · rw [save_response_cfk c q hc v R, getConcernDetail]
    simp only [getVal_insertVal_self]
  · intro c2 q2 v2 hc2 hne
    rw [save_response_cfk c q hc v R,
        save_response_cfk c2 q2 hc2 v2 _,
        detailsOf_insert, getConcernDetail]
    simp only [getVal_insertVal_self]
    by_cases hcc : c2 = c
    · subst hcc
      have hq : q ≠ q2 := fun he => hne ⟨rfl, he.symm⟩
      simp only [getVal_insertVal_self, bucketOf, detailsOf_insert,
        getVal_insertVal_self]
      rw [getVal_insertVal_ne _ _ hq, getVal_insertVal_self]
    · rw [getVal_insertVal_ne _ _ (fun he => hcc he.symm), getVal_insertVal_self]
      simp only [getVal_insertVal_self]

/-- Closed witness for `claim_C3_amended`: two follow-ups of different
concerns stored back to back, the first still retrievable. -/
theorem claim_C3_amended_witness :
    pyIn "|" "sleep" = false ∧
    getConcernDetail
      (save_response (concern_field_key "stress" "busy_level") (Val.s "a lot")
        (save_response (concern_field_key "sleep" "hours") (Val.s "7+") []))
      "sleep" "hours" = some (Val.s "7+") :=
  ⟨by decide,
   (claim_C3_amended "sleep" "hours" (Val.s "7+") [] (by decide)).2
     "stress" "busy_level" (Val.s "a lot") (by decide)
     (by intro h; exact absurd h.1 (by decide))⟩

/-! ### The recommendation engine (`app/services/product_service.py`)

Catalog documents are modelled with the fields the engine reads; multilingual
fields are a dict or a plain string (an absent field is the empty dict, which
behaves identically).  Every score increment in the source is a multiple of
0.5 and the magnitudes stay tiny, so the float arithmetic is exact; we embed
a score `s` as the natural number `2 * s` (half-point units), which represents
it exactly: 1.0 ↦ 2, 2.0 ↦ 4, 1.5 ↦ 3, 0.5 ↦ 1, and the 0.5 confidence
floor ↦ 1.  The Mongo search (`repository.search`) is the catalog
collaborator and is passed in as an oracle `search` function. -/

inductive MLText where
  | mldict (m : List (String × String))
  | mlstr (s : String)
deriving DecidableEq

structure PriceDoc where
  currency : Option String
  amount : Option ℚ
  taxRate : Option ℚ
deriving DecidableEq

inductive PStatus where
  | pbool (b : Bool)
  | pstr (s : String)
  | pmissing
deriving DecidableEq

structure ProductDoc where
  status : PStatus
  isDeleted : Option Bool
  title : MLText
  description : MLText
  shortDescription : Option String
  benefits : List String
  healthGoals : List String
  ingredients : List String
  nutritionInfo : MLText
  howToUse : MLText
  sourceCertifications : List String
  slug : String
  idStr : Option String
  price : Option PriceDoc
deriving DecidableEq

structure Product where
  id : String
  title : String
  slug : String
  description : String
  shortDescription : String
  benefits : List String
  healthGoals : List String
  nutritionInfo : String
  howToUse : String
  price : Option PriceDoc
deriving DecidableEq

/-- `t.get("en", t.get(first_key if t else "", dflt))`. -/
def mlGet (t : MLText) (dflt : String) : String :=
  match t with
  | .mlstr s => s
  | .mldict m =>
    match lookupTable m "en" with
    | some v => v
    | none =>
      match m.head? with
      | some p => p.2
      | none => dflt

/-- `_get_product_text`: all searchable text, blank parts dropped, joined. -/
def get_product_text (p : ProductDoc) : String :=
  joinSep " "
    (([mlGet p.title "", mlGet p.description "", p.shortDescription.getD ""]
      ++ p.benefits ++ p.healthGoals ++ p.ingredients).filter (fun s => s ≠ ""))

/-- The nutrition-info part of the allergen-check text. -/
def nutritionText (t : MLText) : List String :=
  match t with
  | .mlstr s => [s]
  | .mldict m =>
    match lookupTable m "en" with
    | some v => [v]
    | none =>
      match m.head? with
      | some p => [p.2]
      | none => []

/-- `_get_all_product_text_for_allergen_check`. -/
def allergen_text (p : ProductDoc) : String :=
  joinSep " " ([get_product_text p] ++ p.ingredients
    ++ nutritionText p.nutritionInfo ++ p.sourceCertifications)

/-- `CONCERN_TO_KEYWORDS`. -/
def CONCERN_TO_KEYWORDS : List (String × List String) :=
  [("sleep", ["sleep", "rest", "relaxation", "tiredness", "fatigue", "calm"]),
   ("stress", ["stress", "anxiety", "calm", "relaxation", "psychological"]),
   ("energy", ["energy", "fatigue", "tiredness", "vitality", "metabolism"]),
   ("stomach_intestines", ["digestion", "gut", "stomach", "intestines", "bowel", "digestive"]),
   ("skin", ["skin", "collagen", "complexion", "elasticity", "aging"]),
   ("resistance", ["immune", "immunity", "resistance", "immune system"]),
   ("weight", ["weight", "metabolism", "energy metabolism"]),
   ("libido", ["libido", "sexual", "hormone", "hormonal"]),
   ("brain", ["brain", "memory", "concentration", "cognitive", "mental", "focus", "learning"]),
   ("hair_nails", ["hair", "nails", "hair growth", "nail health"]),
   ("fitness", ["fitness", "muscle", "performance", "recovery", "exercise", "strength"]),
   ("hormones", ["hormone", "hormonal", "menstrual", "cycle", "libido"])]

/-- `CONCERN_TO_HEALTH_GOALS` (a plain-string value is a one-element list; the
source treats both shapes with identical any-of semantics). -/
def CONCERN_TO_HEALTH_GOALS : List (String × List String) :=
  [("sleep", ["Sleep"]), ("stress", ["Stress Management"]),
   ("energy", ["Energy Support"]),
   ("stomach_intestines", ["Digestive Health", "Gut Health"]),
   ("skin", ["Skin Health"]), ("resistance", ["Immune Support"]),
   ("weight", ["Weight Management"]), ("libido", ["Libido"]),
   ("brain", ["Brain Health"]), ("hair_nails", ["Hair Health", "Nail Health"]),
   ("fitness", ["Fitness"]), ("hormones", ["Hormone Balance"])]

def lookupL (t : List (String × List String)) (k : String) : Option (List String) :=
  (t.find? (fun p => p.1 = k)).map (·.2)

/-- `_extract_concerns(context)`. -/
def extract_concerns (context : Resps) : List String :=
  match getVal context "concern" with
  | some (Val.s s) =>
    if s = "" then []
    else [pyReplace (pyReplace (pyLower s) " " "_") "&" "_"]
  | some (Val.l cs) =>
    if cs.isEmpty then []
    else cs.map (fun c => pyReplace (pyReplace (pyLower c) " " "_") "&" "_")
  | _ => []

/-- Maximal alphabetic runs of a character list (`re.findall(r"[a-zA-Z]{3,}")`
keeps the runs of length at least three). -/
def alphaRunsGo : List Char → List Char → List (List Char)
  | cur, [] => if cur.isEmpty then [] else [cur.reverse]
  | cur, c :: rest =>
    if c.isAlpha then alphaRunsGo (c :: cur) rest
    else if cur.isEmpty then alphaRunsGo [] rest
    else cur.reverse :: alphaRunsGo [] rest

/-- `_extract_terms(message)`. -/
def extract_terms (message : String) : List String :=
  ((alphaRunsGo [] (pyLower message).data).filter (fun r => 3 ≤ r.length)).map
    (fun r => pyLower (String.mk r))

/-- `_extract_keywords(concerns, message)` (a Python set, modelled as the
insertion-ordered deduplicated list; only membership and iteration sums are
ever used). -/
def extract_keywords (concerns : List String) (message : Option String) : List String :=
  dedupAppend []
    (concerns.flatMap (fun c => (lookupL CONCERN_TO_KEYWORDS c).getD []) ++
     (match message with
      | some m => if m = "" then [] else extract_terms m
      | none => []))

/-- `_concerns_to_health_goals(concerns)`. -/
def concerns_to_health_goals (concerns : List String) : List String :=
  concerns.flatMap (fun c => (lookupL CONCERN_TO_HEALTH_GOALS c).getD [])

/-- `_score_product(product, keywords, concerns, context)`, in half-point
units (each Lean increment is twice the source's float increment; see the
section header). -/
def score_product (p : ProductDoc) (keywords : List String)
    (concerns : List String) (context : Resps) : Nat :=
  let ptext := pyLower (get_product_text p)
  let kwScore : Nat := keywords.foldl
    (fun acc kw => if pyIn kw ptext then acc + 2 else acc) 0
  let hgText := joinSep " " (p.healthGoals.map pyLower)
  let concernScore : Nat := concerns.foldl (fun acc concern =>
    let acc1 := match lookupL CONCERN_TO_HEALTH_GOALS concern with
      | some expectedGoals =>
        if expectedGoals.any (fun eg =>
            p.healthGoals.any (fun pg => pyIn (pyLower eg) (pyLower pg))) then
          acc + 4
        else acc
      | none => acc
    if ((lookupL CONCERN_TO_KEYWORDS concern).getD []).any
        (fun kw => pyIn kw hgText ∨ pyIn kw ptext) then
      acc1 + 3
    else acc1) 0
  let certText := pyLower (joinSep " " p.sourceCertifications)
  let ctxScore : Nat :=
    if context.isEmpty then 0
    else if pyLower (getStr context "eating_habits") = "vegan" then
      (if pyIn "vegan" ptext ∨ pyIn "vegan" certText then 4 else 0)
    else if pyLower (getStr context "eating_habits") = "vegetarian" then
      (if pyIn "vegetarian" ptext ∨ pyIn "vegetarian" certText then 3 else 0)
    else 0
  let hvScore : Nat := (["fatigue", "energy", "immune", "memory", "concentration"]).foldl
    (fun acc kw => if kw ∈ keywords ∧ pyIn kw ptext then acc + 1 else acc) 0
  kwScore + concernScore + ctxScore + hvScore

/-- `_should_exclude_ayurveda(context)`. -/
def should_exclude_ayurveda (context : Resps) : Bool :=
  pyLower (getStr context "ayurveda_view") = "more information needed for an opinion" ∨
  pyLower (getStr context "ayurveda_view") = "i am skeptical" ∨
  pyLower (getStr context "ayurveda_view") = "alternative medicine is nonsense"

def ayurvedaKeywords : List String :=
  ["ayurveda", "ayurvedic", "ayurved", "traditional indian medicine",
   "ancient indian medicine"]

def ayurvedicHerbs : List String :=
  ["ashwagandha", "ashwagandha root", "ashwagandha extract", "withania somnifera",
   "turmeric", "curcumin", "holy basil", "tulsi", "ocimum sanctum", "triphala",
   "amla", "amalaki", "brahmi", "bacopa monnieri", "guggul", "commiphora mukul",
   "shilajit", "guduchi", "tinospora cordifolia", "neem", "azadirachta indica",
   "ginger", "zingiber officinale", "licorice", "glycyrrhiza glabra", "gotu kola",
   "centella asiatica", "boswellia", "frankincense", "boswellia serrata"]

/-- `_is_ayurveda_product(product)`. -/
def is_ayurveda_product (p : ProductDoc) : Bool :=
  ayurvedaKeywords.any (fun k => pyIn k (pyLower (get_product_text p))) ||
  ayurvedicHerbs.any (fun h => pyIn h (pyLower (get_product_text p)))

/-- The allergen synonym table of `_product_contains_allergens`. -/
def allergenMap : List (String × List String) :=
  [("milk", ["milk", "lactose", "dairy", "casein", "whey", "butter", "cream"]),
   ("egg", ["egg", "albumin", "ovalbumin", "lecithin", "eggs"]),
   ("fish", ["fish", "gelatin", "fish oil", "omega-3", "dha", "epa", "cod", "salmon", "tuna"]),
   ("shellfish", ["shellfish", "crustacean", "shrimp", "crab", "lobster", "prawn"]),
   ("crustaceans", ["shellfish", "crustacean", "shrimp", "crab", "lobster", "prawn"]),
   ("peanut", ["peanut", "peanuts", "arachis"]),
   ("nuts", ["nut", "almond", "walnut", "hazelnut", "cashew", "pistachio", "pecan", "macadamia", "brazil nut"]),
   ("soy", ["soy", "soya", "soybean", "soy bean", "tofu", "tempeh", "miso"]),
   ("gluten", ["gluten", "wheat", "barley", "rye", "triticale", "spelt", "kamut"]),
   ("wheat", ["wheat", "gluten", "flour", "semolina", "durum"]),
   ("pollen", ["pollen", "bee pollen", "flower pollen"])]

/-- `_product_contains_allergens(product, user_allergies)`. -/
def product_contains_allergens (p : ProductDoc) (userAllergies : String) : Bool :=
  ((pySplitOn
      (pyReplace (pyLower userAllergies) "shellfish and crustaceans" "shellfish,crustaceans")
      ",").map pyStrip).any (fun a0 =>
    if pyStrip a0 = "" ∨ pyStrip a0 = "no" then false
    else
      (match lookupL allergenMap (pyStrip a0) with
       | some l => if l.isEmpty then [pyStrip a0] else l
       | none => [pyStrip a0]).any
        (fun t => pyIn t (pyLower (allergen_text p))))

def lactoseIndicators : List String :=
  ["lactose", "dairy", "milk", "whey", "casein", "butter", "cream"]

def glutenIndicators : List String := ["gluten", "wheat", "barley", "rye"]

def paleoAvoid : List String :=
  ["wheat", "barley", "rye", "rice", "soy", "soya", "bean", "peanut", "dairy",
   "milk", "lactose"]

/-- `_product_matches_dietary_preferences(product, dietary_prefs)` (the caller
passes the already-lowercased preference string). -/
def product_matches_dietary_preferences (p : ProductDoc) (prefs : String) : Bool :=
  if (pyIn "lactose-free" prefs ∨ pyIn "lactose free" prefs) ∧
      lactoseIndicators.any (fun i => pyIn i (pyLower (allergen_text p))) then
    false
  else if pyIn "gluten free" prefs ∨ pyIn "gluten-free" prefs then
    if (p.sourceCertifications.map pyLower).contains "gluten-free" ∨
        (p.sourceCertifications.map pyLower).contains "gluten free" then
      true
    else if glutenIndicators.any (fun i => pyIn i (pyLower (allergen_text p))) then
      false
    else if pyIn "paleo" prefs ∧
        paleoAvoid.any (fun i => pyIn i (pyLower (allergen_text p))) then
      false
    else true
  else if pyIn "paleo" prefs ∧
      paleoAvoid.any (fun i => pyIn i (pyLower (allergen_text p))) then
    false
  else true

def animalIndicators : List String :=
  ["gelatin", "fish", "shellfish", "milk", "dairy", "whey", "casein"]

/-- The vegan early-rejection clause of `_is_safe_and_suitable`. -/
def veganReject (p : ProductDoc) (context : Resps) : Bool :=
  pyLower (getStr context "eating_habits") = "vegan" ∧
  animalIndicators.any (fun i => pyIn i (pyLower (get_product_text p))) ∧
  ¬ pyIn "vegan" (pyLower (joinSep " " p.sourceCertifications))

/-- The allergen rejection clause of `_is_safe_and_suitable`. -/
def allergenReject (p : ProductDoc) (context : Resps) : Bool :=
  getStr context "allergies" ≠ "" ∧
  pyLower (getStr context "allergies") ≠ "no" ∧
  product_contains_allergens p (getStr context "allergies")

/-- The dietary-preference rejection clause of `_is_safe_and_suitable`. -/
def dietaryReject (p : ProductDoc) (context : Resps) : Bool :=
  pyLower (getStr context "dietary_preferences") ≠ "" ∧
  pyLower (getStr context "dietary_preferences") ≠ "no preference" ∧
  ¬ product_matches_dietary_preferences p (pyLower (getStr context "dietary_preferences"))

/-- `_is_safe_and_suitable(product, context)`: the source returns `False` at
the first failing clause and `True` otherwise, which is exactly the
conjunction of the negated clauses (the clauses are independent reads). -/
def is_safe_and_suitable (p : ProductDoc) (context : Resps) : Bool :=
  if context.isEmpty then true
  else !veganReject p context && !allergenReject p context && !dietaryReject p context

/-- `_mongo_to_product(product)`. -/
def mongo_to_product (p : ProductDoc) : Product :=
  let title := mlGet p.title "Unknown Product"
  let description := mlGet p.description ""
  let sd0 := p.shortDescription.getD ""
  let shortDescription :=
    if sd0 = "" ∧ description ≠ "" then
      if 150 < description.data.length then String.mk (description.data.take 150) ++ "..."
      else description
    else sd0
  { id := match p.idStr with
      | some i => i
      | none =>
        if p.slug ≠ "" then p.slug
        else pyReplace (pyReplace (pyLower title) " " "_") "-" "_"
    title := title
    slug := p.slug
    description := description
    shortDescription := shortDescription
    benefits := p.benefits
    healthGoals := p.healthGoals
    nutritionInfo := mlGet p.nutritionInfo ""
    howToUse := mlGet p.howToUse ""
    price := p.price }

/-- The status/deleted screen plus scoring (with the 0.5 base-score bump,
one half-point unit) applied to the documents returned by the catalog
search. -/
def scored_candidates (mongoProducts : List ProductDoc) (keywords : List String)
    (concerns : List String) (context : Resps) (searchUsedCriteria : Bool) :
    List (Nat × ProductDoc) :=
  mongoProducts.filterMap (fun p =>
    if ¬(p.status = PStatus.pbool true ∨ p.status = PStatus.pstr "Active") then none
    else if p.isDeleted = some true then none
    else
      let sc0 := score_product p keywords concerns context
      let sc := if sc0 = 0 then
          (if searchUsedCriteria then 1
           else if keywords.isEmpty ∧ concerns.isEmpty then 1 else 0)
        else sc0
      if 0 < sc then some (sc, p) else none)

/-- The filtering loop of `find_relevant_products` (confidence floor
`MIN_CONFIDENCE_SCORE = 0.5`, one half-point unit; include/exclude sets,
Ayurveda exclusion, safety/suitability, cap of 3). -/
def filterLoop (context : Resps) (excludeTitles : List String)
    (includeTitles : Option (List String)) (excludeAyur : Bool) :
    List (Nat × ProductDoc) → List Product → List Product
  | [], acc => acc
  | (sc, p) :: rest, acc =>
    if sc < 1 then
      if 1 ≤ acc.length then acc
      else filterLoop context excludeTitles includeTitles excludeAyur rest acc
    else if (match includeTitles with
             | some inc => ! inc.contains (mongo_to_product p).title
             | none => false) then
      filterLoop context excludeTitles includeTitles excludeAyur rest acc
    else if excludeTitles.contains (mongo_to_product p).title then
      filterLoop context excludeTitles includeTitles excludeAyur rest acc
    else if excludeAyur ∧ is_ayurveda_product p then
      filterLoop context excludeTitles includeTitles excludeAyur rest acc
    else if is_safe_and_suitable p context then
      if 3 ≤ (acc ++ [mongo_to_product p]).length then acc ++ [mongo_to_product p]
      else filterLoop context excludeTitles includeTitles excludeAyur rest
        (acc ++ [mongo_to_product p])
    else filterLoop context excludeTitles includeTitles excludeAyur rest acc

def insertDoc : List (String × ProductDoc) → String → ProductDoc →
    List (String × ProductDoc)
  | [], k, v => [(k, v)]
  | (k', v') :: rest, k, v =>
    if k' = k then (k, v) :: rest else (k', v') :: insertDoc rest k v

/-- `self._extract_terms(message) if message else []`. -/
def message_terms (message : Option String) : List String :=
  match message with
  | some m => if m = "" then [] else extract_terms m
  | none => []

/-- `search_limit = limit or 20`. -/
def search_limit (limit : Option Nat) : Nat :=
  match limit with
  | some n => if n = 0 then 20 else n
  | none => 20

/-- The document list returned by the catalog search inside
`find_relevant_products`. -/
def frp_mongo
    (search : List String → List String → Nat → Option (List String) → List ProductDoc)
    (message : Option String) (context : Resps) (limit : Option Nat)
    (includeProductTitles : Option (List String)) : List ProductDoc :=
  search (message_terms message) (concerns_to_health_goals (extract_concerns context))
    (search_limit limit * 2) includeProductTitles

/-- `search_used_criteria = bool(health_goals or message_terms or
include_product_titles)`. -/
def search_used_criteria (message : Option String) (context : Resps)
    (includeProductTitles : Option (List String)) : Bool :=
  !(concerns_to_health_goals (extract_concerns context)).isEmpty ||
  !(message_terms message).isEmpty ||
  (match includeProductTitles with
   | some l => !l.isEmpty
   | none => false)

/-- The scored candidate pool of `find_relevant_products`, sorted by score
descending (Python's stable `sort(..., reverse=True)`). -/
def frp_sorted
    (search : List String → List String → Nat → Option (List String) → List ProductDoc)
    (message : Option String) (context : Resps) (limit : Option Nat)
    (includeProductTitles : Option (List String)) : List (Nat × ProductDoc) :=
  stableSortDesc (fun a b => decide (b.1 < a.1))
    (scored_candidates (frp_mongo search message context limit includeProductTitles)
      (extract_keywords (extract_concerns context) message)
      (extract_concerns context) context
      (search_used_criteria message context includeProductTitles))

/-- `find_relevant_products(message, context, limit, exclude_product_titles,
include_product_titles)`, parameterized by the catalog-search collaborator
(`search message_terms health_goals limit include_product_titles`). -/
def find_relevant_products
    (search : List String → List String → Nat → Option (List String) → List ProductDoc)
    (message : Option String) (context : Resps) (limit : Option Nat)
    (excludeProductTitles : List String) (includeProductTitles : Option (List String)) :
    List Product × List (String × ProductDoc) :=
  if (frp_mongo search message context limit includeProductTitles).isEmpty then ([], [])
  else
    let includeT := match includeProductTitles with
      | some l => if l.isEmpty then none else some l
      | none => none
    let filtered := filterLoop context excludeProductTitles includeT
      (should_exclude_ayurveda context)
      (frp_sorted search message context limit includeProductTitles) []
    (filtered.take 3,
     (frp_sorted search message context limit includeProductTitles).foldl
       (fun m sp => insertDoc m (mongo_to_product sp.2).title sp.2) [])

/-! ### C1: the recommendation cap and the confidence floor -/

/-- Every product produced by the filtering loop was already in the
accumulator, or stems from a scored candidate at or above the 0.5 floor
(one half-point unit; the `continue` in the below-floor branch never
appends). -/
theorem mem_filterLoop (context : Resps) (ex : List String)
    (inc : Option (List String)) (ay : Bool) :
    ∀ (l : List (Nat × ProductDoc)) (acc : List Product) (q : Product),
      q ∈ filterLoop context ex inc ay l acc →
      q ∈ acc ∨ ∃ sp, sp ∈ l ∧ 1 ≤ sp.1 ∧ q = mongo_to_product sp.2
  | [], _, _, h => Or.inl h
  | (sc, p) :: rest, acc, q, h => by
    have tailStep : ∀ {acc' : List Product}, q ∈ filterLoop context ex inc ay rest acc' →
        q ∈ acc' ∨ ∃ sp, sp ∈ (sc, p) :: rest ∧ 1 ≤ sp.1 ∧
          q = mongo_to_product sp.2 := by
      intro acc' h'
      rcases mem_filterLoop context ex inc ay rest acc' q h' with ha | ⟨sp, hm, hle, he⟩
      · exact Or.inl ha
      · exact Or.inr ⟨sp, List.mem_cons_of_mem _ hm, hle, he⟩
    simp only [filterLoop] at h
    by_cases h1 : sc < 1
    · rw [if_pos h1] at h
      by_cases h2 : 1 ≤ acc.length
      · rw [if_pos h2] at h
        exact Or.inl h
      · rw [if_neg h2] at h
        exact tailStep h
    · rw [if_neg h1] at h
      have hsc : 1 ≤ sc := le_of_not_lt h1
      have headCase : q ∈ acc ++ [mongo_to_product p] →
          q ∈ acc ∨ ∃ sp, sp ∈ (sc, p) :: rest ∧ 1 ≤ sp.1 ∧
            q = mongo_to_product sp.2 := by
        intro him
        rcases List.mem_append.mp him with ha | hb
        · exact Or.inl ha
        · exact Or.inr ⟨(sc, p), List.mem_cons_self _ _, hsc, by simpa using hb⟩
      split_ifs at h
      · exact tailStep h
      · exact tailStep h
      · exact tailStep h
      · exact headCase h
      · rcases mem_filterLoop context ex inc ay rest (acc ++ [mongo_to_product p]) q h with
          ha | ⟨sp, hm, hle, he⟩
        · exact headCase ha
        · exact Or.inr ⟨sp, List.mem_cons_of_mem _ hm, hle, he⟩
      · exact tailStep h

/-- C1: `find_relevant_products` returns at most 3 products, and every
returned product comes from a scored candidate whose score is at least the
0.5 confidence floor (so no returned product ever scores below it; recall a
pool entry carries twice the source's score, so its float score is
`sp.1 / 2` and the floor reads `1/2 ≤ sp.1 / 2`). -/
theorem claim_C1_recommendation_cap
    (search : List String → List String → Nat → Option (List String) → List ProductDoc)
    (message : Option String) (context : Resps) (limit : Option Nat)
    (excludeProductTitles : List String) (includeProductTitles : Option (List String))
    (q : Product)
    (hq : q ∈ (find_relevant_products search message context limit excludeProductTitles
        includeProductTitles).1) :
    (find_relevant_products search message context limit excludeProductTitles
        includeProductTitles).1.length ≤ 3 ∧
    ∃ sp, sp ∈ scored_candidates (frp_mongo search message context limit includeProductTitles)
        (extract_keywords (extract_concerns context) message) (extract_concerns context)
        context (search_used_criteria message context includeProductTitles) ∧
      (1:ℚ)/2 ≤ (sp.1 : ℚ)/2 ∧ q = mongo_to_product sp.2 := by
  simp only [find_relevant_products] at hq ⊢
  split_ifs at hq ⊢ with hemp
  · exact absurd hq (List.not_mem_nil q)
  · constructor
    · simpa [List.length_take] using min_le_left 3 _
    · have := mem_filterLoop context excludeProductTitles _ (should_exclude_ayurveda context)
        (frp_sorted search message context limit includeProductTitles) []
        q (List.mem_of_mem_take hq)
      rcases this with ha | ⟨sp, hm, hle, he⟩
      · exact absurd ha (List.not_mem_nil q)
      · refine ⟨sp, (mem_stableSortDesc).mp hm, ?_, he⟩
        have h1 : (1:ℚ) ≤ (sp.1 : ℚ) := by exact_mod_cast hle
        linarith

def c1doc : ProductDoc :=
  { status := PStatus.pstr "Active", isDeleted := none,
    title := MLText.mlstr "Sleep Well", description := MLText.mlstr "",
    shortDescription := none, benefits := [], healthGoals := ["Sleep"],
    ingredients := [], nutritionInfo := MLText.mldict [], howToUse := MLText.mldict [],
    sourceCertifications := [], slug := "sleep-well", idStr := none, price := none }

def c1search (mt hg : List String) (lim : Nat) (inc : Option (List String)) :
    List ProductDoc :=
  match mt, hg, lim, inc with
  | _, _, _, _ => [c1doc]

def c1ctx : Resps := [("concern", Val.l ["sleep"])]

theorem claim_C1_recommendation_cap_witness :
    mongo_to_product c1doc ∈ (find_relevant_products c1search none c1ctx none [] none).1 ∧
    ((find_relevant_products c1search none c1ctx none [] none).1.length ≤ 3 ∧
     ∃ sp, sp ∈ scored_candidates (frp_mongo c1search none c1ctx none none)
         (extract_keywords (extract_concerns c1ctx) none) (extract_concerns c1ctx)
         c1ctx (search_used_criteria none c1ctx none) ∧
       (1:ℚ)/2 ≤ (sp.1 : ℚ)/2 ∧ mongo_to_product c1doc = mongo_to_product sp.2) :=
  ⟨by decide, claim_C1_recommendation_cap c1search none c1ctx none [] none
    (mongo_to_product c1doc) (by decide)⟩

/-! ### C9: shellfish allergen exclusion -/

/-- C9: a candidate whose allergen-check text contains any member of the
shellfish synonym set is rejected by the safety filter when the stored
`allergies` answer is `"shellfish and crustaceans"`, and is not rejected on
allergen grounds when the answer is `"no"`. -/
theorem claim_C9_allergen_exclusion (p : ProductDoc) (R1 R2 : Resps) (t : String)
    (ht : t ∈ ["shellfish", "crustacean", "shrimp", "crab", "lobster", "prawn"])
    (hin : pyIn t (pyLower (allergen_text p)) = true)
    (h1 : getVal R1 "allergies" = some (Val.s "shellfish and crustaceans"))
    (h2 : getVal R2 "allergies" = some (Val.s "no")) :
    is_safe_and_suitable p R1 = false ∧ allergenReject p R2 = false := by
  constructor
  · have hR : R1.isEmpty = false := by
      cases R1 with
      | nil => simp [getVal] at h1
      | cons a as => rfl
    have hstr : getStr R1 "allergies" = "shellfish and crustaceans" := by
      simp [getStr, h1, pyStrOr]
    have hexp : product_contains_allergens p "shellfish and crustaceans" =
        (["shellfish", "crustacean", "shrimp", "crab", "lobster", "prawn"].any
          (fun u => pyIn u (pyLower (allergen_text p))) ||
         (["shellfish", "crustacean", "shrimp", "crab", "lobster", "prawn"].any
          (fun u => pyIn u (pyLower (allergen_text p))) || false)) := rfl
    have hany : (["shellfish", "crustacean", "shrimp", "crab", "lobster", "prawn"].any
        (fun u => pyIn u (pyLower (allergen_text p)))) = true :=
      List.any_eq_true.mpr ⟨t, ht, hin⟩
    have hpca : product_contains_allergens p "shellfish and crustaceans" = true := by
      rw [hexp, hany]
      rfl
    have har : allergenReject p R1 = true := by
      simp only [allergenReject, hstr, hpca]
      decide
    simp [is_safe_and_suitable, hR, har]
  · have hstr : getStr R2 "allergies" = "no" := by
      simp [getStr, h2, pyStrOr]
    simp only [allergenReject, hstr]
    rfl

def c9doc : ProductDoc :=
  { status := PStatus.pstr "Active", isDeleted := none,
    title := MLText.mldict [("nl", "Omega Boost")],
    description := MLText.mlstr "Marine collagen support",
    shortDescription := none, benefits := [], healthGoals := [],
    ingredients := ["Shrimp extract"], nutritionInfo := MLText.mldict [],
    howToUse := MLText.mldict [], sourceCertifications := [],
    slug := "omega-boost", idStr := none, price := none }

theorem claim_C9_allergen_exclusion_witness :
    ("shrimp" ∈ ["shellfish", "crustacean", "shrimp", "crab", "lobster", "prawn"] ∧
     pyIn "shrimp" (pyLower (allergen_text c9doc)) = true ∧
     getVal [("allergies", Val.s "shellfish and crustaceans")] "allergies" =
       some (Val.s "shellfish and crustaceans") ∧
     getVal [("allergies", Val.s "no")] "allergies" = some (Val.s "no")) ∧
    (is_safe_and_suitable c9doc [("allergies", Val.s "shellfish and crustaceans")] = false ∧
     allergenReject c9doc [("allergies", Val.s "no")] = false) :=
  ⟨⟨by decide, by decide, rfl, rfl⟩,
   claim_C9_allergen_exclusion c9doc [("allergies", Val.s "shellfish and crustaceans")]
     [("allergies", Val.s "no")] "shrimp" (by decide) (by decide) rfl rfl⟩

/-! ### C4: `get_safety_warnings` and the pregnancy scan

`_detect_pregnancy_concerns` builds its warning list, but its final
`return warnings` statement is indented inside the trailing
`if "high dose" in combined_text or "megadose" in combined_text:` block, so
Python returns `None` (modelled as `Option.none`) whenever neither phrase
occurs; the caller's `if pregnancy_concerns:` then silently drops every
warning that was collected. -/

/-- `_get_product_text_for_analysis` (title, description, benefits, health
goals, nutrition info; blank parts dropped). -/
def analysis_text (p : ProductDoc) : String :=
  joinSep " " (([mlGet p.title "", mlGet p.description ""] ++ p.benefits
    ++ p.healthGoals ++ nutritionText p.nutritionInfo).filter (fun s => s ≠ ""))

def pregnancyRiskyHerbs : List (String × String) :=
  [("black cohosh", "may affect hormone levels"),
   ("dong quai", "may cause uterine contractions"),
   ("goldenseal", "may cause uterine contractions"),
   ("blue cohosh", "may cause uterine contractions"),
   ("pennyroyal", "may cause miscarriage"),
   ("saw palmetto", "may affect hormone levels"),
   ("yohimbe", "may affect blood pressure"),
   ("ephedra", "may affect blood pressure and heart rate")]

def vitaminAWarning : String :=
  "This product contains Vitamin A (retinol). High doses of Vitamin A can be harmful during pregnancy. Please consult your healthcare provider before use."

def herbWarning (herb reason : String) : String :=
  "This product contains " ++ herb ++ ", which " ++ reason ++
    " during pregnancy. Please consult your healthcare provider before use."

def mineralWarning : String :=
  "This product contains high doses of minerals. Please consult your healthcare provider to ensure the dosage is appropriate during pregnancy or breastfeeding."

/-- `_detect_pregnancy_concerns(product_text, ingredients_text)`: `none` is
Python's implicit `None`, reached whenever neither "high dose" nor "megadose"
occurs in the combined text, because the final `return warnings` sits inside
that `if` block (source lines 827–835). -/
def detect_pregnancy_concerns (productText ingredientsText : String) :
    Option (List String) :=
  let combined := productText ++ " " ++ ingredientsText
  let w1 : List String :=
    if (["retinol", "vitamin a", "retinyl", "high dose vitamin a"].any
          (fun u => pyIn u combined)) ∧
        ¬ pyIn "beta-carotene" (pyLower combined) then [vitaminAWarning] else []
  let w2 : List String := pregnancyRiskyHerbs.filterMap (fun hr =>
    if pyIn hr.1 combined then some (herbWarning hr.1 hr.2) else none)
  if pyIn "high dose" combined ∨ pyIn "megadose" combined then
    some (w1 ++ w2 ++
      (if (["iron", "zinc", "selenium"]).any (fun u => pyIn u combined) then
        [mineralWarning] else []))
  else none

def allergenIndicators : List (String × List String) :=
  [("milk", ["milk", "lactose", "casein", "whey", "dairy"]),
   ("egg", ["egg", "albumin", "lecithin", "ovalbumin"]),
   ("fish", ["fish", "fish oil", "omega-3", "dha", "epa", "cod liver"]),
   ("shellfish", ["shellfish", "shrimp", "crab", "lobster", "crustacean"]),
   ("peanut", ["peanut", "arachis"]),
   ("tree nuts", ["almond", "walnut", "hazelnut", "cashew", "pistachio", "pecan", "macadamia"]),
   ("soy", ["soy", "soya", "soybean", "tofu"]),
   ("gluten", ["wheat", "barley", "rye", "gluten"])]

/-- `_detect_allergens(product_text, ingredients_text)`. -/
def detect_allergens (productText ingredientsText : String) : List String :=
  let combined := productText ++ " " ++ ingredientsText
  allergenIndicators.filterMap (fun ai =>
    if ai.2.any (fun ind => pyIn ind combined) then some ai.1 else none)

def ageHighDoseWarning : String :=
  "This product contains high doses that may not be suitable for individuals under 18. Please consult a healthcare provider before use."

def ageStimulantWarning : String :=
  "This product contains stimulants. Use caution if you are under 18, and consult a healthcare provider."

def ageWeightWarning : String :=
  "Weight management supplements are generally not recommended for individuals under 18. Please consult a healthcare provider."

/-- `_detect_age_concerns(product_text, ingredients_text)`. -/
def detect_age_concerns (productText ingredientsText : String) : List String :=
  let combined := productText ++ " " ++ ingredientsText
  (if (["high dose", "megadose", "exceeds", "above recommended"]).any
      (fun u => pyIn u combined) then [ageHighDoseWarning] else []) ++
  (if (["caffeine", "guarana", "yerba mate", "green tea extract"]).any
      (fun u => pyIn u combined) then [ageStimulantWarning] else []) ++
  (if (["weight loss", "fat burner", "metabolism booster"]).any
      (fun u => pyIn u combined) then [ageWeightWarning] else [])

def medicalTreatmentWarning : String :=
  "Please consult with your healthcare provider before starting any new supplements, especially if you're currently undergoing medical treatment."

def allergenNoticeMsg (relevant : List String) : String :=
  "This product may contain " ++ joinSep ", " relevant ++
    ". Please check the ingredient list and consult with your healthcare provider if you have allergies."

/-- `get_safety_warnings(product_doc, context)`. -/
def get_safety_warnings (p : ProductDoc) (context : Resps) : List String :=
  let productText := pyLower (analysis_text p)
  let ingredientsText := joinSep " " (p.ingredients.map pyLower)
  let allText := pyLower (productText ++ " " ++ ingredientsText)
  let userGender : Option String :=
    if context.isEmpty then none
    else if pyLower (getStr context "gender") ∈ ["male", "man", "m"] then some "male"
    else if pyLower (getStr context "gender") ∈ ["female", "woman", "f"] then some "female"
    else none
  let userAge : Option Nat :=
    if context.isEmpty then none
    else if getStr context "age" ≠ "" ∧ pyIsDigit (getStr context "age") then
      some (digitsToNat (getStr context "age").data)
    else none
  let isPregnant : Bool :=
    ¬context.isEmpty ∧
    (getStr context "conceive" = "yes" ∨
     pyIn "pregnant" (pyLower (getStr context "situation")))
  let isBreastfeeding : Bool :=
    ¬context.isEmpty ∧ pyIn "breastfeeding" (pyLower (getStr context "situation"))
  let medicalTreatment : Bool :=
    ¬context.isEmpty ∧ pyLower (getStr context "medical_treatment") = "yes"
  let w1 : List String :=
    if userGender ≠ some "male" ∧ (isPregnant ∨ isBreastfeeding) then
      match detect_pregnancy_concerns allText ingredientsText with
      | some ws => ws
      | none => []
    else []
  let detected := detect_allergens allText ingredientsText
  let userAllergies : String :=
    if context.isEmpty then "" else pyLower (getStr context "allergies")
  let w2 : List String :=
    if ¬detected.isEmpty ∧ userAllergies ≠ "" ∧ userAllergies ≠ "no" then
      (if ¬(detected.filter (fun a => pyIn (pyLower a) userAllergies)).isEmpty then
        [allergenNoticeMsg (detected.filter (fun a => pyIn (pyLower a) userAllergies))]
      else [])
    else []
  let w3 : List String :=
    match userAge with
    | some a => if a ≠ 0 ∧ a < 18 then detect_age_concerns allText ingredientsText else []
    | none => []
  let w4 : List String := if medicalTreatment then [medicalTreatmentWarning] else []
  w1 ++ w2 ++ w3 ++ w4

def c4doc : ProductDoc :=
  { status := PStatus.pstr "Active", isDeleted := none,
    title := MLText.mlstr "Vitamin A Complex",
    description := MLText.mlstr "Pure retinol supplement",
    shortDescription := none, benefits := [], healthGoals := [],
    ingredients := ["retinol"], nutritionInfo := MLText.mldict [],
    howToUse := MLText.mldict [], sourceCertifications := [],
    slug := "vitamin-a-complex", idStr := none, price := none }

/-- The same document with the phrase "high dose" added to the description:
only then does the misplaced `return` fire. -/
def c4docHD : ProductDoc :=
  { c4doc with description := MLText.mlstr "Pure retinol supplement high dose" }

def c4ctx : Resps := [("gender", Val.s "female"), ("conceive", Val.s "yes")]

/-- C4 (code bug): for the pregnant context `c4ctx` and the retinol product
`c4doc` — whose combined text contains "retinol" and no "beta-carotene", so
the claim requires the vitamin-A pregnancy warning — `get_safety_warnings`
returns no warnings at all: `_detect_pregnancy_concerns` only reaches its
(mis-indented) `return warnings` when the text also contains "high dose" or
"megadose", as the variant `c4docHD` shows, and the caller drops the `None`.
-/
theorem claim_C4_pregnancy_warning_dropped :
    pyIn "retinol" (pyLower (analysis_text c4doc)) = true ∧
    pyIn "beta-carotene" (pyLower (analysis_text c4doc)) = false ∧
    pyLower (getStr c4ctx "gender") = "female" ∧
    getStr c4ctx "conceive" = "yes" ∧
    get_safety_warnings c4doc c4ctx = [] ∧
    get_safety_warnings c4docHD c4ctx = [vitaminAWarning] :=
  ⟨rfl, rfl, rfl, rfl, rfl, rfl⟩

/-! ### The dialog turn (`handle_message`, `app/services/chat_service.py`)

One call of `handle_message` is modelled as a pure function from the stored
onboarding metadata (plus the incoming message and the session facts) to the
metadata written back, the chat messages appended to the session, and the
`ChatResponse.reply`.  The collaborators that only produce text or options,
or data the control flow stores verbatim — prompt construction, friendly
phrasing, acknowledgments, recommendation formatting, the catalog search,
previous-session lookups, the concern-overlap check and the LLM — enter as
oracle fields of `TurnEnv`, so every theorem below holds for all of them. -/

structure ChatMsg where
  role : String
  content : String
deriving DecidableEq

/-- Python `v == s` for a stored value against a string literal (a list value
never equals a string). -/
def valIsStr (v : Val) (s : String) : Bool :=
  match v with
  | Val.s t => t = s
  | _ => false

/-- The onboarding metadata dict.  The first eight fields are the keys
`_get_onboarding_state` preserves across turns; the remaining fields are the
extra keys `handle_message` writes into the stored dict, which the next
load silently drops (see `loadOnb`). -/
structure Onb where
  step : Nat
  awaiting_answer : Bool
  awaiting_registration_confirmation : Bool
  responses : Resps
  complete : Bool
  last_answer : Option Val
  last_field : Option String
  first_question_shown : Bool
  recommendations_shown : Bool
  recommended_product_titles : List String
  should_ask_previous_concern_followup : Bool
  previous_concern_followup_checked : Bool
  previous_concern_followup_response : Option Val
  previous_concerns : List String
  previous_products : List String
  previous_concern_checked : Bool
  awaiting_previous_concern_response : Bool
  previous_concern_resolved : Option Bool
  awaiting_login_check : Bool

/-- `_get_onboarding_state`: keeps exactly eight keys of the stored dict and
lets every other key fall back to its default. -/
def loadOnb (s : Onb) : Onb :=
  { step := s.step, awaiting_answer := s.awaiting_answer,
    awaiting_registration_confirmation := s.awaiting_registration_confirmation,
    responses := s.responses, complete := s.complete, last_answer := s.last_answer,
    last_field := s.last_field, first_question_shown := s.first_question_shown,
    recommendations_shown := false, recommended_product_titles := [],
    should_ask_previous_concern_followup := false,
    previous_concern_followup_checked := false,
    previous_concern_followup_response := none,
    previous_concerns := [], previous_products := [],
    previous_concern_checked := false, awaiting_previous_concern_response := false,
    previous_concern_resolved := none, awaiting_login_check := false }

/-- A fresh session's onboarding state (`create_session` may pre-populate
some responses, hence the parameter). -/
def initOnb (R0 : Resps) : Onb :=
  { step := 0, awaiting_answer := false, awaiting_registration_confirmation := false,
    responses := R0, complete := false, last_answer := none, last_field := none,
    first_question_shown := false, recommendations_shown := false,
    recommended_product_titles := [], should_ask_previous_concern_followup := false,
    previous_concern_followup_checked := false, previous_concern_followup_response := none,
    previous_concerns := [], previous_products := [], previous_concern_checked := false,
    awaiting_previous_concern_response := false, previous_concern_resolved := none,
    awaiting_login_check := false }

structure TurnEnv where
  hasPrev : Bool
  userIdPresent : Bool
  search : List String → List String → Nat → Option (List String) → List ProductDoc
  buildPrompt : String → Resps → String
  friendlyQuestion : String → Nat → Option Val → Option String → Resps → String
  acknowledgment : String → Val → Resps → String
  questionByKey : String → String → Resps → Option String
  formatRecs : List Product → Resps → List (String × ProductDoc) → Option Bool →
    List String → List String → String
  majorConcernSame : List String → Bool
  dbPrevConcerns : List String
  dbPrevProducts : List String
  prevOverlapQuestion : List String → List String → String
  prevConcernQuestion : List String → String
  aiReply : String

/-- The effect of one `handle_message` call: the onboarding dict written back
to the session metadata (the input dict when the turn never writes), the chat
messages appended, and the `reply` field of the returned `ChatResponse`. -/
structure TurnOut where
  stored : Onb
  appended : List ChatMsg
  reply : Option ChatMsg

def quizDoneMsg : String :=
  "Thank you for completing the quiz! Your personalized recommendations have been provided above. If you have any questions, please feel free to reach out to our support team. Have a great day! 😊"

def redirectMsg : String :=
  "Perfect! I'll redirect you to create a separate registration. This will give your family member the best personalized experience! 🎯"

def regConfInvalidMsg : String :=
  "Please choose 'Yes' to redirect to registration or 'No' to continue here."

def regNoAck : String :=
  "No problem! Let's continue with the quiz for your family member here. 😊"

def familySuggestMsg : String :=
  "I understand you'd like to get recommendations for a family member. For the best personalized experience, I'd recommend creating a separate registration for your family member at https://viteezy.nl/login so they can have their own personalized product recommendations.\n\nWould you like to do that?"

def prevInvalidMsg : String :=
  "Please answer 'yes' or 'no'. Has the previous issue been resolved?"

/-- The three-tier recommendation fallback shared verbatim by the
medical-treatment branch and the completion branch: exclude the previous
products when the previous concern is unresolved; fall back to searching for
exactly the previous products; fall back to an unconstrained search. -/
def recommendProducts (env : TurnEnv) (ctx : Resps) (prevProducts : List String)
    (resolved : Option Bool) : List Product × List (String × ProductDoc) :=
  let r1 := find_relevant_products env.search none ctx (some 10)
    (if resolved = some false then prevProducts else []) none
  let r2 := if r1.1.isEmpty ∧ ¬prevProducts.isEmpty ∧ resolved = some false then
      find_relevant_products env.search none ctx (some 3) [] (some prevProducts)
    else r1
  if r2.1.isEmpty then find_relevant_products env.search none ctx (some 3) [] none
  else r2

/-- The message list the recommendation formatter contributes in the
medical-treatment branch (empty when no products were found — the source only
appends the formatted reply inside `if recommended_products:`). -/
def medicalRecMsgs (env : TurnEnv) (S : Onb) : List ChatMsg :=
  if (recommendProducts env S.responses S.previous_products
      S.previous_concern_resolved).1.isEmpty then []
  else [⟨"assistant", env.formatRecs
    (recommendProducts env S.responses S.previous_products
      S.previous_concern_resolved).1
    S.responses
    (recommendProducts env S.responses S.previous_products
      S.previous_concern_resolved).2
    S.previous_concern_resolved S.previous_concerns
    (if S.previous_concern_resolved = some false then S.previous_products else [])⟩]

/-- The medical-treatment branch: mark the interview complete, generate the
recommendations synchronously, persist the outcome, reply with no content. -/
def medicalFlow (env : TurnEnv) (userMsg : ChatMsg) (S : Onb)
    (preMsgs : List ChatMsg) : TurnOut :=
  ⟨{ S with
     complete := true
     recommendations_shown := true
     recommended_product_titles :=
       (recommendProducts env S.responses S.previous_products
         S.previous_concern_resolved).1.map (fun q => q.title) },
   preMsgs ++ [userMsg] ++ medicalRecMsgs env S, none⟩

/-- The tail of the completion branch: the yes/no handler for a pending
previous-concern question, then the final recommendation reply. -/
def finishFlow (env : TurnEnv) (msg : String) (userMsg : ChatMsg) (S : Onb)
    (preMsgs : List ChatMsg) : TurnOut :=
  let go : Onb → List ChatMsg → TurnOut := fun T ms =>
    let rd := recommendProducts env T.responses T.previous_products
      T.previous_concern_resolved
    let reply : ChatMsg := ⟨"assistant", env.formatRecs rd.1 T.responses rd.2
      T.previous_concern_resolved T.previous_concerns
      (if T.previous_concern_resolved = some false then T.previous_products else [])⟩
    ⟨{ T with complete := true, recommendations_shown := true,
              recommended_product_titles := rd.1.map (fun q => q.title) },
     ms ++ [reply], some reply⟩
  if S.awaiting_previous_concern_response then
    let resp := pyLower (pyStrip msg)
    if resp ∈ ["yes", "yep", "yeah", "y"] then
      go { S with previous_concern_resolved := some true,
                  awaiting_previous_concern_response := false }
        (preMsgs ++ [userMsg])
    else if resp ∈ ["no", "nope", "nah", "n"] then
      go { S with previous_concern_resolved := some false,
                  awaiting_previous_concern_response := false }
        (preMsgs ++ [userMsg])
    else
      let reply : ChatMsg := ⟨"assistant", prevInvalidMsg⟩
      ⟨S, preMsgs ++ [userMsg, reply], some reply⟩
  else go S preMsgs

/-- The completion branch (`step` has reached the end of the step list):
mark the interview complete, possibly start the previous-concern sub-dialog
for returning users, then hand over to `finishFlow`. -/
def completionFlow (env : TurnEnv) (msg : String) (userMsg : ChatMsg) (S : Onb)
    (preMsgs : List ChatMsg) : TurnOut :=
  let S1 := { S with complete := true }
  let S2 := if S1.awaiting_login_check then { S1 with awaiting_login_check := false }
    else S1
  if env.hasPrev ∧ env.userIdPresent ∧ ¬S2.previous_concern_checked then
    let prevC := env.dbPrevConcerns
    let curC := normalize_concerns (getVal S2.responses "concern")
    if ¬prevC.isEmpty ∧ ¬curC.isEmpty then
      let overlap := prevC.filter (fun c => c ∈ curC)
      if ¬overlap.isEmpty then
        let reply : ChatMsg := ⟨"assistant",
          env.prevOverlapQuestion overlap env.dbPrevProducts⟩
        ⟨{ S2 with previous_concern_checked := true,
                   awaiting_previous_concern_response := true,
                   previous_concerns := overlap,
                   previous_products := env.dbPrevProducts },
         preMsgs ++ [userMsg, reply], some reply⟩
      else finishFlow env msg userMsg S2 preMsgs
    else if ¬prevC.isEmpty then
      let reply : ChatMsg := ⟨"assistant", env.prevConcernQuestion prevC⟩
      ⟨{ S2 with previous_concern_checked := true,
                 awaiting_previous_concern_response := true,
                 previous_concerns := prevC },
       preMsgs ++ [userMsg, reply], some reply⟩
    else finishFlow env msg userMsg { S2 with previous_concern_checked := true } preMsgs
  else finishFlow env msg userMsg S2 preMsgs

/-- The re-evaluated `should_ask_previous_concern_followup` flag. -/
def caShould (env : TurnEnv) (S : Onb) : Bool :=
  if env.userIdPresent ∧ env.hasPrev ∧ ¬S.previous_concern_followup_checked then
    (if ¬(normalize_concerns (getVal S.responses "concern")).isEmpty then
      env.majorConcernSame (normalize_concerns (getVal S.responses "concern"))
    else S.should_ask_previous_concern_followup)
  else S.should_ask_previous_concern_followup

/-- The state after the flag re-evaluation (the flag is written back only
when the oracle was actually consulted). -/
def caState (env : TurnEnv) (S : Onb) : Onb :=
  if env.userIdPresent ∧ env.hasPrev ∧ ¬S.previous_concern_followup_checked ∧
      ¬(normalize_concerns (getVal S.responses "concern")).isEmpty then
    { S with should_ask_previous_concern_followup := caShould env S }
  else S

/-- The part after a saved answer (or a skipped validation): re-check whether
the previous-concern follow-up question must be inserted, then ask the next
question or finish. -/
def continueFlow (env : TurnEnv) (msg : String) (userMsg : ChatMsg) (S : Onb)
    (ack : String) (preMsgs : List ChatMsg) : TurnOut :=
  let Sa := caState env S
  let L2 := ordered_steps Sa.responses env.hasPrev (caShould env S)
  if Sa.step < L2.length then
    let nextField := L2.getD Sa.step ""
    let q := env.friendlyQuestion (env.buildPrompt nextField Sa.responses) Sa.step
      Sa.last_answer Sa.last_field Sa.responses
    let content := if ack ≠ "" then ack ++ "\n\n" ++ q else q
    let reply : ChatMsg := ⟨"assistant", content⟩
    ⟨{ Sa with awaiting_answer := true }, preMsgs ++ [userMsg, reply], some reply⟩
  else completionFlow env msg userMsg Sa preMsgs

/-- The saved-answer state: normalized value stored, last answer/field set. -/
def vfSaved (S : Onb) (fld : String) (vres : Bool × Val × String) : Onb :=
  { S with responses := save_response fld vres.2.1 S.responses,
           last_answer := some vres.2.1, last_field := some fld }

/-- The state after the normal step advance, including the
`previous_concern_followup` bookkeeping when that was the answered field. -/
def vfNext (env : TurnEnv) (S : Onb) (fld : String) (vres : Bool × Val × String) : Onb :=
  if fld = "previous_concern_followup" then
    { (vfSaved S fld vres) with
      step := S.step + 1
      awaiting_answer := false
      previous_concern_followup_checked := true
      previous_concern_followup_response := some vres.2.1
      previous_concerns := if env.userIdPresent then env.dbPrevConcerns
        else S.previous_concerns
      previous_products := if env.userIdPresent then env.dbPrevProducts
        else S.previous_products }
  else { (vfSaved S fld vres) with step := S.step + 1, awaiting_answer := false }

/-- The validation part of the turn, after the current field and the
validator verdict have been computed. -/
def vfGo2 (env : TurnEnv) (msg : String) (userMsg : ChatMsg) (S : Onb)
    (preMsgs : List ChatMsg) (fld : String) (vres : Bool × Val × String) : TurnOut :=
  if vres.1 = false then
    ⟨S, preMsgs ++ [userMsg, ⟨"assistant", vres.2.2⟩], some ⟨"assistant", vres.2.2⟩⟩
  else if fld = "for_whom" ∧ valIsStr vres.2.1 "family" then
    ⟨{ (vfSaved S fld vres) with
       awaiting_registration_confirmation := true
       awaiting_answer := false },
     preMsgs ++ [userMsg, ⟨"assistant", familySuggestMsg⟩],
     some ⟨"assistant", familySuggestMsg⟩⟩
  else if fld = "medical_treatment" then
    medicalFlow env userMsg (vfNext env S fld vres) preMsgs
  else
    continueFlow env msg userMsg (vfNext env S fld vres)
      (env.acknowledgment fld vres.2.1 (save_response fld vres.2.1 S.responses)) preMsgs

/-- Validate and dispatch on the pending answer. -/
def validateFlow (env : TurnEnv) (msg : String) (userMsg : ChatMsg) (S : Onb)
    (preMsgs : List ChatMsg) : TurnOut :=
  vfGo2 env msg userMsg S preMsgs
    ((ordered_steps S.responses env.hasPrev false).getD S.step "")
    (validate_response env.questionByKey
      ((ordered_steps S.responses env.hasPrev false).getD S.step "")
      (pyStrip msg) S.responses)

/-- The core of the turn once the first-message, completed-quiz and
registration-confirmation gates have been passed: validate and save the
pending answer (when one is awaited), then continue.  `SS` is the metadata
value on record so far, returned untouched by the free-form branch, which
never writes. -/
def mainFlow (env : TurnEnv) (msg : String) (userMsg : ChatMsg) (S : Onb)
    (ack : String) (preMsgs : List ChatMsg) (SS : Onb) : TurnOut :=
  if S.step < (ordered_steps S.responses env.hasPrev false).length then
    if S.awaiting_answer then validateFlow env msg userMsg S preMsgs
    else continueFlow env msg userMsg S ack preMsgs
  else
    ⟨SS, preMsgs ++ [userMsg, ⟨"assistant", env.aiReply⟩],
     some ⟨"assistant", env.aiReply⟩⟩

/-- The auto-started first question (first user message of a fresh,
unfinished session). -/
def firstQuestionOut (env : TurnEnv) (msg : String) (S0 : Onb) : TurnOut :=
  ⟨{ loadOnb S0 with step := 0, awaiting_answer := true },
   [⟨"user", msg⟩, ⟨"assistant", env.friendlyQuestion
     (env.buildPrompt ((ordered_steps (loadOnb S0).responses env.hasPrev false).getD 0 "")
       (loadOnb S0).responses) 0 none none (loadOnb S0).responses⟩],
   some ⟨"assistant", env.friendlyQuestion
     (env.buildPrompt ((ordered_steps (loadOnb S0).responses env.hasPrev false).getD 0 "")
       (loadOnb S0).responses) 0 none none (loadOnb S0).responses⟩⟩

/-- The state after a "no" to the registration suggestion: continue here with
the family flow. -/
def regNoState (S0 : Onb) : Onb :=
  { loadOnb S0 with
    awaiting_registration_confirmation := false
    step := (loadOnb S0).step + 1
    awaiting_answer := false }

/-- The pending registration-confirmation handler. -/
def regConfFlow (env : TurnEnv) (msg : String) (S0 : Onb) : TurnOut :=
  if pyLower (pyStrip msg) ∈ ["okay", "ok", "yes", "yep", "yeah", "sure", "alright", "y"] then
    ⟨{ loadOnb S0 with awaiting_registration_confirmation := false },
     [⟨"user", msg⟩, ⟨"assistant", redirectMsg⟩], some ⟨"assistant", redirectMsg⟩⟩
  else if pyLower (pyStrip msg) ∈ ["no", "nope", "nah", "n"] then
    mainFlow env msg ⟨"user", msg⟩ (regNoState S0) regNoAck [⟨"user", msg⟩] (regNoState S0)
  else
    ⟨loadOnb S0, [⟨"user", msg⟩, ⟨"assistant", regConfInvalidMsg⟩],
     some ⟨"assistant", regConfInvalidMsg⟩⟩

/-- One `handle_message` call on the raw stored metadata `S0`. -/
def handleTurn (env : TurnEnv) (isFirst : Bool) (msg : String) (S0 : Onb) : TurnOut :=
  if isFirst ∧ ¬(loadOnb S0).complete ∧ ¬(loadOnb S0).first_question_shown ∧
      (loadOnb S0).step = 0 ∧ ¬(loadOnb S0).awaiting_answer ∧
      ¬(ordered_steps (loadOnb S0).responses env.hasPrev false).isEmpty then
    firstQuestionOut env msg S0
  else if (loadOnb S0).complete ∧ (loadOnb S0).recommendations_shown then
    ⟨S0, [⟨"user", msg⟩, ⟨"assistant", quizDoneMsg⟩], some ⟨"assistant", quizDoneMsg⟩⟩
  else if (loadOnb S0).awaiting_registration_confirmation then
    regConfFlow env msg S0
  else mainFlow env msg ⟨"user", msg⟩ (loadOnb S0) "" [] S0


/-! ### Structural lemmas about `_ordered_steps` for the state invariant -/

/-- Abbreviation for the step-list length with the follow-up flag off (the
list `handle_message` indexes into). -/
def stepLen (R : Resps) (hp : Bool) : Nat := (ordered_steps R hp false).length

theorem identitySeg_length_ge (hp : Bool) (R : Resps) :
    1 ≤ (identitySeg hp R).length := by
  unfold identitySeg
  split_ifs <;> simp

/-- The 21 unconditional appends (including `protein`, present in both
branches of the identity segment) give a length floor for every input. -/
theorem ordered_steps_length_ge (R : Resps) (hp sa : Bool) :
    21 ≤ (ordered_steps R hp sa).length := by
  have hI := identitySeg_length_ge hp R
  simp only [ordered_steps, List.length_append]
  split_ifs <;> simp_all <;> omega

/-- Turning the follow-up flag on only inserts one extra element. -/
theorem ordered_steps_length_mono (R : Resps) (hp sa : Bool) :
    stepLen R hp ≤ (ordered_steps R hp sa).length := by
  simp only [stepLen, ordered_steps, List.length_append]
  split_ifs <;> simp_all <;> omega

/-- An index whose element avoids the right part of an append lands in the
left part. -/
theorem index_lt_of_not_mem_right {α : Type} {P S : List α} {i : Nat}
    (h : i < (P ++ S).length)
    (hn : (P ++ S).get ⟨i, h⟩ ∉ S) : i < P.length := by
  by_contra hi
  push_neg at hi
  refine hn ?_
  have hlt : i - P.length < S.length := by
    have := h
    simp only [List.length_append] at this
    omega
  have : (P ++ S).get ⟨i, h⟩ = S.get ⟨i - P.length, hlt⟩ := by
    simp only [List.get_eq_getElem]
    exact List.getElem_append_right hi
  rw [this]
  exact S.get_mem _ hlt

/-- Inserting a response for a key the step computation never reads leaves
the step list unchanged. -/
theorem ordered_steps_insertVal_ne (R : Resps) (k : String) (v : Val) (hp sa : Bool)
    (h1 : k ≠ "for_whom") (h2 : k ≠ "gender") (h3 : k ≠ "conceive")
    (h4 : k ≠ "concern") (h5 : k ≠ "eating_habits") (h6 : k ≠ "drinks_alcohol") :
    ordered_steps (insertVal R k v) hp sa = ordered_steps R hp sa := by
  have e1 := @getVal_insertVal_ne R k "for_whom" v (Ne.symm h1)
  have e2 := @getVal_insertVal_ne R k "gender" v (Ne.symm h2)
  have e3 := @getVal_insertVal_ne R k "conceive" v (Ne.symm h3)
  have e4 := @getVal_insertVal_ne R k "concern" v (Ne.symm h4)
  have e5 := @getVal_insertVal_ne R k "eating_habits" v (Ne.symm h5)
  have e6 := @getVal_insertVal_ne R k "drinks_alcohol" v (Ne.symm h6)
  simp only [ordered_steps, forWhomSeg, identitySeg, genderSeg, concernSeg,
    eatingSeg, alcoholSeg, getStr, e1, e2, e3, e4, e5, e6]

theorem getD_not_mem_right {P S : List String} {i : Nat} (h : i < (P ++ S).length)
    (hn : (P ++ S).getD i "" ∉ S) : i < P.length := by
  refine index_lt_of_not_mem_right h ?_
  have he : (P ++ S).getD i "" = (P ++ S).get ⟨i, h⟩ := by
    simp [List.getD, List.getElem?_eq_getElem h, List.get_eq_getElem]
  rwa [he] at hn

theorem getD_unique_index {P S : List String} {m : String} (hP : m ∉ P) (hS : m ∉ S)
    {i : Nat} (h : i < (P ++ [m] ++ S).length)
    (hg : (P ++ [m] ++ S).getD i "" = m) : i = P.length := by
  have hup : i < (P ++ [m]).length := by
    have h2 : i < ((P ++ [m]) ++ S).length := by simpa [List.append_assoc] using h
    refine getD_not_mem_right h2 ?_
    have he : ((P ++ [m]) ++ S).getD i "" = (P ++ [m] ++ S).getD i "" := by
      rw [List.append_assoc]
    rw [he, hg]
    exact hS
  have hlow : ¬ i < P.length := by
    intro hi
    refine hP ?_
    have h3 : i < (P ++ ([m] ++ S)).length := by
      simpa [List.append_assoc] using h
    have he : (P ++ ([m] ++ S)).getD i "" = P[i] := by
      rw [List.getD_eq_getElem _ _ h3]
      exact List.getElem_append_left hi
    rw [List.append_assoc] at hg
    rw [he] at hg
    rw [← hg]
    exact P.get_mem i hi
  simp only [List.length_append, List.length_singleton] at hup
  omega

/-- The prefix of the step list through the `concern` question. -/
def preCon (R : Resps) (hp : Bool) : List String :=
  (if ¬hp then ["name"] else []) ++ ["for_whom"] ++ forWhomSeg R ++ ["age"]
  ++ identitySeg hp R ++ genderSeg R ++ ["concern"]

def postCon (R : Resps) (sa : Bool) : List String :=
  concernSeg R
  ++ ["lifestyle_status", "fruit_intake", "vegetable_intake", "dairy_intake",
      "fiber_intake", "protein_intake", "eating_habits"]
  ++ eatingSeg R ++ ["drinks_alcohol"] ++ alcoholSeg R
  ++ ["coffee_intake", "smokes"]
  ++ ["allergies", "dietary_preferences", "sunlight_exposure", "iron_advised",
      "ayurveda_view", "new_product_attitude"]
  ++ (if sa then ["previous_concern_followup"] else [])
  ++ ["medical_treatment"]

theorem ordered_steps_eq_con (R : Resps) (hp sa : Bool) :
    ordered_steps R hp sa = preCon R hp ++ postCon R sa := by
  simp [ordered_steps, preCon, postCon, List.append_assoc]

theorem preCon_length_le (R : Resps) (hp : Bool) : (preCon R hp).length ≤ 13 := by
  have h1 : (forWhomSeg R).length ≤ 2 := by unfold forWhomSeg; split_ifs <;> simp
  have h2 : (identitySeg hp R).length ≤ 5 := by
    unfold identitySeg; split_ifs <;> simp
  have h3 : (genderSeg R).length ≤ 2 := by unfold genderSeg; split_ifs <;> simp
  simp only [preCon, List.length_append]
  split_ifs <;> simp_all <;> omega

theorem early_not_mem_postCon {k : String}
    (hk : k ∈ ["for_whom", "gender", "conceive", "concern", "name"]) (R : Resps)
    (sa : Bool) : k ∉ postCon R sa := by
  intro hmem
  simp only [postCon, List.mem_append] at hmem
  cases sa <;> fin_cases hk <;> casesm* _ ∨ _ <;>
    first
      | (exact absurd (mem_concernSeg (by assumption)) (by decide))
      | (exact absurd (mem_eatingSeg (by assumption)) (by decide))
      | (exact absurd (mem_alcoholSeg (by assumption)) (by decide))
      | simp_all

/-- Any occurrence of one of the early branch keys sits strictly inside the
first 13 positions of the step list. -/
theorem early_key_index_lt (R : Resps) (hp sa : Bool) {i : Nat}
    (h : i < (ordered_steps R hp sa).length)
    (hget : (ordered_steps R hp sa).getD i "" ∈
      ["for_whom", "gender", "conceive", "concern"]) : i < 13 := by
  have hd := ordered_steps_eq_con R hp sa
  rw [hd] at h hget
  have hi : i < (preCon R hp).length := by
    refine getD_not_mem_right h fun hmem => early_not_mem_postCon ?_ R sa hmem
    exact List.mem_append_left _ hget
  exact lt_of_lt_of_le hi (preCon_length_le R hp)

/-- The step list up to (excluding) `eating_habits`. -/
def preEat (R : Resps) (hp : Bool) : List String :=
  preCon R hp ++ concernSeg R
  ++ ["lifestyle_status", "fruit_intake", "vegetable_intake", "dairy_intake",
      "fiber_intake", "protein_intake"]

/-- The step list after `eating_habits`. -/
def postEat (R : Resps) (sa : Bool) : List String :=
  eatingSeg R ++ ["drinks_alcohol"] ++ alcoholSeg R ++ ["coffee_intake", "smokes"]
  ++ ["allergies", "dietary_preferences", "sunlight_exposure", "iron_advised",
      "ayurveda_view", "new_product_attitude"]
  ++ (if sa then ["previous_concern_followup"] else []) ++ ["medical_treatment"]

theorem ordered_steps_eq_eat (R : Resps) (hp sa : Bool) :
    ordered_steps R hp sa = preEat R hp ++ ["eating_habits"] ++ postEat R sa := by
  simp [ordered_steps, preEat, preCon, postEat, List.append_assoc]

theorem eating_habits_not_mem_preEat (R : Resps) (hp : Bool) :
    "eating_habits" ∉ preEat R hp := by
  intro hmem
  simp only [preEat, preCon, List.mem_append] at hmem
  split_ifs at hmem <;> casesm* _ ∨ _ <;>
    first
      | (exact absurd (mem_forWhomSeg (by assumption)) (by decide))
      | (exact absurd (mem_identitySeg (by assumption)) (by decide))
      | (exact absurd (mem_genderSeg (by assumption)) (by decide))
      | (exact absurd (mem_concernSeg (by assumption)) (by decide))
      | simp_all

theorem eating_habits_not_mem_postEat (R : Resps) (sa : Bool) :
    "eating_habits" ∉ postEat R sa := by
  intro hmem
  simp only [postEat, List.mem_append] at hmem
  cases sa <;> casesm* _ ∨ _ <;>
    first
      | (exact absurd (mem_eatingSeg (by assumption)) (by decide))
      | (exact absurd (mem_alcoholSeg (by assumption)) (by decide))
      | simp_all

theorem preEat_insertVal_eating (R : Resps) (hp : Bool) (v : Val) :
    preEat (insertVal R "eating_habits" v) hp = preEat R hp := by
  have e1 := @getVal_insertVal_ne R "eating_habits" "for_whom" v (by decide)
  have e2 := @getVal_insertVal_ne R "eating_habits" "gender" v (by decide)
  have e3 := @getVal_insertVal_ne R "eating_habits" "conceive" v (by decide)
  have e4 := @getVal_insertVal_ne R "eating_habits" "concern" v (by decide)
  simp only [preEat, preCon, forWhomSeg, identitySeg, genderSeg, concernSeg,
    getStr, e1, e2, e3, e4]

/-- Saving a (vegetarian/vegan or any other) `eating_habits` answer keeps the
answered question inside the new step list: the prefix before it is
untouched, so the new list still has `step + 1` elements at least. -/
theorem step_succ_le_insert_eating (R : Resps) (hp : Bool) (v : Val) {i : Nat}
    (h : i < (ordered_steps R hp false).length)
    (hg : (ordered_steps R hp false).getD i "" = "eating_habits") :
    i + 1 ≤ stepLen (insertVal R "eating_habits" v) hp := by
  rw [ordered_steps_eq_eat R hp false] at h hg
  have hi : i = (preEat R hp).length :=
    getD_unique_index (eating_habits_not_mem_preEat R hp)
      (eating_habits_not_mem_postEat R false) h hg
  rw [stepLen, ordered_steps_eq_eat _ hp false, preEat_insertVal_eating R hp v]
  simp only [List.length_append, List.length_singleton]
  omega

/-- The step list up to (excluding) `drinks_alcohol`. -/
def preAlc (R : Resps) (hp : Bool) : List String :=
  preEat R hp ++ ["eating_habits"] ++ eatingSeg R

/-- The step list after `drinks_alcohol`. -/
def postAlc (R : Resps) (sa : Bool) : List String :=
  alcoholSeg R ++ ["coffee_intake", "smokes"]
  ++ ["allergies", "dietary_preferences", "sunlight_exposure", "iron_advised",
      "ayurveda_view", "new_product_attitude"]
  ++ (if sa then ["previous_concern_followup"] else []) ++ ["medical_treatment"]

theorem ordered_steps_eq_alc (R : Resps) (hp sa : Bool) :
    ordered_steps R hp sa = preAlc R hp ++ ["drinks_alcohol"] ++ postAlc R sa := by
  simp [ordered_steps, preAlc, preEat, preCon, postAlc, List.append_assoc]

theorem drinks_not_mem_preAlc (R : Resps) (hp : Bool) :
    "drinks_alcohol" ∉ preAlc R hp := by
  intro hmem
  simp only [preAlc, preEat, preCon, List.mem_append] at hmem
  split_ifs at hmem <;> casesm* _ ∨ _ <;>
    first
      | (exact absurd (mem_forWhomSeg (by assumption)) (by decide))
      | (exact absurd (mem_identitySeg (by assumption)) (by decide))
      | (exact absurd (mem_genderSeg (by assumption)) (by decide))
      | (exact absurd (mem_concernSeg (by assumption)) (by decide))
      | (exact absurd (mem_eatingSeg (by assumption)) (by decide))
      | simp_all

theorem drinks_not_mem_postAlc (R : Resps) (sa : Bool) :
    "drinks_alcohol" ∉ postAlc R sa := by
  intro hmem
  simp only [postAlc, List.mem_append] at hmem
  cases sa <;> casesm* _ ∨ _ <;>
    first
      | (exact absurd (mem_alcoholSeg (by assumption)) (by decide))
      | simp_all

theorem preAlc_insertVal_drinks (R : Resps) (hp : Bool) (v : Val) :
    preAlc (insertVal R "drinks_alcohol" v) hp = preAlc R hp := by
  have e1 := @getVal_insertVal_ne R "drinks_alcohol" "for_whom" v (by decide)
  have e2 := @getVal_insertVal_ne R "drinks_alcohol" "gender" v (by decide)
  have e3 := @getVal_insertVal_ne R "drinks_alcohol" "conceive" v (by decide)
  have e4 := @getVal_insertVal_ne R "drinks_alcohol" "concern" v (by decide)
  have e5 := @getVal_insertVal_ne R "drinks_alcohol" "eating_habits" v (by decide)
  simp only [preAlc, preEat, preCon, forWhomSeg, identitySeg, genderSeg, concernSeg,
    eatingSeg, getStr, e1, e2, e3, e4, e5]

theorem step_succ_le_insert_drinks (R : Resps) (hp : Bool) (v : Val) {i : Nat}
    (h : i < (ordered_steps R hp false).length)
    (hg : (ordered_steps R hp false).getD i "" = "drinks_alcohol") :
    i + 1 ≤ stepLen (insertVal R "drinks_alcohol" v) hp := by
  rw [ordered_steps_eq_alc R hp false] at h hg
  have hi : i = (preAlc R hp).length :=
    getD_unique_index (drinks_not_mem_preAlc R hp)
      (drinks_not_mem_postAlc R false) h hg
  rw [stepLen, ordered_steps_eq_alc _ hp false, preAlc_insertVal_drinks R hp v]
  simp only [List.length_append, List.length_singleton]
  omega

theorem medical_not_mem_body (R : Resps) (hp sa : Bool) :
    "medical_treatment" ∉
      preAlc R hp ++ ["drinks_alcohol"] ++ alcoholSeg R ++ ["coffee_intake", "smokes"]
      ++ ["allergies", "dietary_preferences", "sunlight_exposure", "iron_advised",
          "ayurveda_view", "new_product_attitude"]
      ++ (if sa then ["previous_concern_followup"] else []) := by
  intro hmem
  simp only [preAlc, preEat, preCon, List.mem_append] at hmem
  cases sa <;> split_ifs at hmem <;> casesm* _ ∨ _ <;>
    first
      | (exact absurd (mem_forWhomSeg (by assumption)) (by decide))
      | (exact absurd (mem_identitySeg (by assumption)) (by decide))
      | (exact absurd (mem_genderSeg (by assumption)) (by decide))
      | (exact absurd (mem_concernSeg (by assumption)) (by decide))
      | (exact absurd (mem_eatingSeg (by assumption)) (by decide))
      | (exact absurd (mem_alcoholSeg (by assumption)) (by decide))
      | simp_all

theorem ordered_steps_eq_medical (R : Resps) (hp sa : Bool) :
    ordered_steps R hp sa =
      (preAlc R hp ++ ["drinks_alcohol"] ++ alcoholSeg R ++ ["coffee_intake", "smokes"]
       ++ ["allergies", "dietary_preferences", "sunlight_exposure", "iron_advised",
           "ayurveda_view", "new_product_attitude"]
       ++ (if sa then ["previous_concern_followup"] else []))
      ++ ["medical_treatment"] ++ [] := by
  simp [ordered_steps, preAlc, preEat, preCon, List.append_assoc]

/-- `medical_treatment` occurs only as the very last step. -/
theorem medical_index_eq (R : Resps) (hp sa : Bool) {i : Nat}
    (h : i < (ordered_steps R hp sa).length)
    (hg : (ordered_steps R hp sa).getD i "" = "medical_treatment") :
    i + 1 = (ordered_steps R hp sa).length := by
  rw [ordered_steps_eq_medical R hp sa] at h hg ⊢
  have hi := getD_unique_index (medical_not_mem_body R hp sa)
    (List.not_mem_nil "medical_treatment") h hg
  simp only [List.length_append, List.length_singleton, List.length_nil] at hi ⊢
  omega

/-- `for_whom` occurs only within the first two positions. -/
theorem for_whom_index_le (R : Resps) (hp sa : Bool) {i : Nat}
    (h : i < (ordered_steps R hp sa).length)
    (hg : (ordered_steps R hp sa).getD i "" = "for_whom") : i ≤ 1 := by
  have hd : ordered_steps R hp sa =
      ((if ¬hp then ["name"] else []) ++ ["for_whom"]) ++
      (forWhomSeg R ++ ["age"] ++ identitySeg hp R ++ genderSeg R ++ ["concern"]
        ++ postCon R sa) := by
    rw [ordered_steps_eq_con R hp sa]
    simp [preCon, List.append_assoc]
  rw [hd] at h hg
  have hi : i < ((if ¬hp then ["name"] else []) ++ ["for_whom"]).length := by
    refine getD_not_mem_right h ?_
    rw [hg]
    intro hmem
    simp only [List.mem_append] at hmem
    casesm* _ ∨ _ <;>
      first
        | (exact absurd (mem_forWhomSeg (by assumption)) (by decide))
        | (exact absurd (mem_identitySeg (by assumption)) (by decide))
        | (exact absurd (mem_genderSeg (by assumption)) (by decide))
        | (exact early_not_mem_postCon (show "for_whom" ∈
            ["for_whom", "gender", "conceive", "concern", "name"] from by decide)
            R sa (by assumption))
        | simp_all
  have hlen : ((if ¬hp then ["name"] else []) ++ ["for_whom"]).length ≤ 2 := by
    split_ifs <;> simp
  omega

/-! ### The C6 invariant and its preservation through every branch -/

/-- The state-machine invariant of the onboarding dialog: the cursor stays
within the step list computed from the stored responses; a completed state is
no longer awaiting an answer and its cursor has reached the end; a pending
registration confirmation can only hang off the `for_whom` question (cursor
at most 1) of an unfinished interview. -/
def OnbInv (hp : Bool) (S : Onb) : Prop :=
  S.step ≤ stepLen S.responses hp ∧
  (S.complete = true → S.awaiting_answer = false ∧ stepLen S.responses hp ≤ S.step) ∧
  (S.awaiting_registration_confirmation = true → S.step ≤ 1 ∧ S.complete = false)

theorem caState_core (env : TurnEnv) (S : Onb) :
    (caState env S).step = S.step ∧ (caState env S).responses = S.responses ∧
    (caState env S).complete = S.complete ∧
    (caState env S).awaiting_answer = S.awaiting_answer ∧
    (caState env S).awaiting_registration_confirmation =
      S.awaiting_registration_confirmation := by
  unfold caState
  split_ifs <;> exact ⟨rfl, rfl, rfl, rfl, rfl⟩

theorem finishFlow_inv (env : TurnEnv) (msg : String) (userMsg : ChatMsg) (S : Onb)
    (preMsgs : List ChatMsg)
    (hc : S.complete = true) (ha : S.awaiting_answer = false)
    (hr : S.awaiting_registration_confirmation = false)
    (hlo : stepLen S.responses env.hasPrev ≤ S.step)
    (hhi : S.step ≤ stepLen S.responses env.hasPrev) :
    OnbInv env.hasPrev (finishFlow env msg userMsg S preMsgs).stored ∧
    (finishFlow env msg userMsg S preMsgs).stored.step = S.step := by
  unfold finishFlow OnbInv
  by_cases h1 : S.awaiting_previous_concern_response = true
  · simp only [h1, if_true, if_pos]
    by_cases h2 : pyLower (pyStrip msg) ∈ ["yes", "yep", "yeah", "y"]
    · rw [if_pos h2]
      simp_all
    · rw [if_neg h2]
      by_cases h3 : pyLower (pyStrip msg) ∈ ["no", "nope", "nah", "n"]
      · rw [if_pos h3]
        simp_all
      · rw [if_neg h3]
        simp_all
  · simp only [Bool.not_eq_true] at h1
    simp_all

theorem medicalFlow_inv (env : TurnEnv) (userMsg : ChatMsg) (S : Onb)
    (preMsgs : List ChatMsg)
    (ha : S.awaiting_answer = false)
    (hr : S.awaiting_registration_confirmation = false)
    (hlo : stepLen S.responses env.hasPrev ≤ S.step)
    (hhi : S.step ≤ stepLen S.responses env.hasPrev) :
    OnbInv env.hasPrev (medicalFlow env userMsg S preMsgs).stored ∧
    (medicalFlow env userMsg S preMsgs).stored.step = S.step := by
  unfold medicalFlow OnbInv
  simp_all

theorem completionFlow_inv (env : TurnEnv) (msg : String) (userMsg : ChatMsg)
    (S : Onb) (preMsgs : List ChatMsg)
    (ha : S.awaiting_answer = false)
    (hr : S.awaiting_registration_confirmation = false)
    (heq : S.step = stepLen S.responses env.hasPrev) :
    OnbInv env.hasPrev (completionFlow env msg userMsg S preMsgs).stored ∧
    (completionFlow env msg userMsg S preMsgs).stored.step = S.step := by
  simp only [completionFlow]
  split_ifs
  all_goals
    first
      | (exact finishFlow_inv env msg userMsg _ preMsgs rfl ha hr
          (le_of_eq heq.symm) (le_of_eq heq))
      | (exact ⟨⟨le_of_eq heq, fun _ => ⟨ha, le_of_eq heq.symm⟩,
          fun hco => absurd hco (by simp [hr])⟩, rfl⟩)
theorem continueFlow_inv (env : TurnEnv) (msg : String) (userMsg : ChatMsg)
    (S : Onb) (ack : String) (preMsgs : List ChatMsg)
    (hc : S.complete = false) (ha : S.awaiting_answer = false)
    (hr : S.awaiting_registration_confirmation = false)
    (hlen : S.step ≤ stepLen S.responses env.hasPrev) :
    OnbInv env.hasPrev (continueFlow env msg userMsg S ack preMsgs).stored ∧
    (continueFlow env msg userMsg S ack preMsgs).stored.step = S.step := by
  obtain ⟨e1, e2, e3, e4, e5⟩ := caState_core env S
  simp only [continueFlow]
  split_ifs with hlt hack
  · exact ⟨⟨by simpa [e1, e2] using hlen,
      fun hco => absurd (e3 ▸ hco) (by simp [hc]),
      fun hco => absurd (e5 ▸ hco) (by simp [hr])⟩, e1⟩
  · exact ⟨⟨by simpa [e1, e2] using hlen,
      fun hco => absurd (e3 ▸ hco) (by simp [hc]),
      fun hco => absurd (e5 ▸ hco) (by simp [hr])⟩, e1⟩
  · have heq : (caState env S).step = stepLen (caState env S).responses env.hasPrev := by
      have hge := ordered_steps_length_mono (caState env S).responses env.hasPrev
        (caShould env S)
      rw [e1, e2] at hlt ⊢
      rw [e2] at hge
      omega
    have h := completionFlow_inv env msg userMsg (caState env S) preMsgs
      (by rw [e4]; exact ha) (by rw [e5]; exact hr) heq
    exact ⟨h.1, by rw [h.2, e1]⟩

/-- After a validated answer is saved, the advanced cursor is still within
the recomputed step list: saving a non-branch key leaves the list unchanged;
the early branch keys sit below index 13 of a list that always has at least
21 entries; and saving `eating_habits` or `drinks_alcohol` preserves the
whole prefix up to the answered question. -/
theorem step_succ_le_save (R : Resps) (hp : Bool) (v : Val) {i : Nat}
    (h : i < (ordered_steps R hp false).length) :
    i + 1 ≤ stepLen (save_response ((ordered_steps R hp false).getD i "") v R) hp := by
  by_cases hf1 : (ordered_steps R hp false).getD i "" = "eating_habits"
  · rw [hf1]
    have hs : save_response "eating_habits" v R = insertVal R "eating_habits" v := rfl
    rw [hs]
    exact step_succ_le_insert_eating R hp v h hf1
  by_cases hf2 : (ordered_steps R hp false).getD i "" = "drinks_alcohol"
  · rw [hf2]
    have hs : save_response "drinks_alcohol" v R = insertVal R "drinks_alcohol" v := rfl
    rw [hs]
    exact step_succ_le_insert_drinks R hp v h hf2
  by_cases hf3 : (ordered_steps R hp false).getD i "" ∈
      ["for_whom", "gender", "conceive", "concern"]
  · have hidx := early_key_index_lt R hp false h hf3
    have h21 := ordered_steps_length_ge
      (save_response ((ordered_steps R hp false).getD i "") v R) hp false
    simp only [stepLen]
    omega
  · simp only [List.mem_cons, List.not_mem_nil, or_false, not_or] at hf3
    obtain ⟨hw, hg, hcv, hcn⟩ := hf3
    have hpres : stepLen (save_response ((ordered_steps R hp false).getD i "") v R) hp
        = stepLen R hp := by
      simp only [save_response, if_neg hcn]
      rcases hpf : parse_concern_field ((ordered_steps R hp false).getD i "") with
        _ | ⟨c, q⟩
      · simp only [stepLen]
        rw [ordered_steps_insertVal_ne R _ v hp false hw hg hcv hcn hf1 hf2]
      · simp only [stepLen]
        rw [ordered_steps_insertVal_ne R "concern_details" _ hp false (by decide)
          (by decide) (by decide) (by decide) (by decide) (by decide)]
    rw [hpres]
    simp only [stepLen]
    omega

theorem vfNext_core (env : TurnEnv) (S : Onb) (fld : String)
    (vres : Bool × Val × String) :
    (vfNext env S fld vres).step = S.step + 1 ∧
    (vfNext env S fld vres).responses = save_response fld vres.2.1 S.responses ∧
    (vfNext env S fld vres).awaiting_answer = false ∧
    (vfNext env S fld vres).awaiting_registration_confirmation =
      S.awaiting_registration_confirmation ∧
    (vfNext env S fld vres).complete = S.complete := by
  unfold vfNext vfSaved
  split_ifs <;> exact ⟨rfl, rfl, rfl, rfl, rfl⟩

theorem vfGo2_inv (env : TurnEnv) (msg : String) (userMsg : ChatMsg) (S : Onb)
    (preMsgs : List ChatMsg) (fld : String) (vres : Bool × Val × String)
    (hS : OnbInv env.hasPrev S)
    (hr : S.awaiting_registration_confirmation = false)
    (hcomp : S.complete = false)
    (hlt : S.step < (ordered_steps S.responses env.hasPrev false).length)
    (hf : (ordered_steps S.responses env.hasPrev false).getD S.step "" = fld) :
    OnbInv env.hasPrev (vfGo2 env msg userMsg S preMsgs fld vres).stored ∧
    S.step ≤ (vfGo2 env msg userMsg S preMsgs fld vres).stored.step := by
  obtain ⟨e1, e2, e3, e4, e5⟩ := vfNext_core env S fld vres
  rw [vfGo2]
  split_ifs with hval hfam hmed
  -- rejected answer: nothing changes
  · exact ⟨hS, le_refl _⟩
  -- for_whom = family: wait for the registration confirmation
  · have hidx : S.step ≤ 1 :=
      for_whom_index_le S.responses env.hasPrev false hlt (hf.trans hfam.1)
    have h21 := ordered_steps_length_ge (save_response fld vres.2.1 S.responses)
      env.hasPrev false
    refine ⟨⟨?_, ?_, ?_⟩, le_refl _⟩
    · simp only [vfSaved, stepLen]
      omega
    · intro hco
      exact absurd hco (by simp [vfSaved, hcomp])
    · intro _
      exact ⟨hidx, by simp [vfSaved, hcomp]⟩
  -- medical_treatment: complete the interview and recommend synchronously
  · subst hmed
    have hmi := medical_index_eq S.responses env.hasPrev false hlt hf
    have hpres := ordered_steps_insertVal_ne S.responses "medical_treatment"
      vres.2.1 env.hasPrev false (by decide) (by decide)
      (by decide) (by decide) (by decide) (by decide)
    have hsl : stepLen (save_response "medical_treatment" vres.2.1 S.responses)
        env.hasPrev = S.step + 1 := by
      have hs : save_response "medical_treatment" vres.2.1 S.responses
          = insertVal S.responses "medical_treatment" vres.2.1 := rfl
      rw [hs]
      simp only [stepLen]
      rw [hpres]
      omega
    have h := medicalFlow_inv env userMsg (vfNext env S "medical_treatment" vres)
      preMsgs e3 (by rw [e4]; exact hr)
      (by rw [e1, e2, hsl]) (by rw [e1, e2, hsl])
    exact ⟨h.1, by rw [h.2, e1]; omega⟩
  -- an ordinary field: save and continue
  · have hb := step_succ_le_save S.responses env.hasPrev vres.2.1 hlt
    rw [hf] at hb
    have h := continueFlow_inv env msg userMsg (vfNext env S fld vres)
      (env.acknowledgment fld vres.2.1 (save_response fld vres.2.1 S.responses)) preMsgs
      (by rw [e5]; exact hcomp) e3 (by rw [e4]; exact hr)
      (by rw [e1, e2]; exact hb)
    exact ⟨h.1, by rw [h.2, e1]; omega⟩

theorem mainFlow_inv (env : TurnEnv) (msg : String) (userMsg : ChatMsg) (S : Onb)
    (ack : String) (preMsgs : List ChatMsg) (SS : Onb) (n : Nat)
    (hS : OnbInv env.hasPrev S)
    (hr : S.awaiting_registration_confirmation = false)
    (hSS : OnbInv env.hasPrev SS)
    (hnS : n ≤ S.step) (hnSS : n ≤ SS.step) :
    OnbInv env.hasPrev (mainFlow env msg userMsg S ack preMsgs SS).stored ∧
    n ≤ (mainFlow env msg userMsg S ack preMsgs SS).stored.step := by
  rw [mainFlow]
  split_ifs with hlt haw
  · have hcomp : S.complete = false := by
      rcases Bool.eq_false_or_eq_true S.complete with h | h
      · have h2 := (hS.2.1 h).2
        simp only [stepLen] at h2
        omega
      · exact h
    rw [validateFlow]
    have h := vfGo2_inv env msg userMsg S preMsgs
      ((ordered_steps S.responses env.hasPrev false).getD S.step "")
      (validate_response env.questionByKey
        ((ordered_steps S.responses env.hasPrev false).getD S.step "")
        (pyStrip msg) S.responses)
      hS hr hcomp hlt rfl
    exact ⟨h.1, le_trans hnS h.2⟩
  · have hcomp : S.complete = false := by
      rcases Bool.eq_false_or_eq_true S.complete with h | h
      · have h2 := (hS.2.1 h).2
        simp only [stepLen] at h2
        omega
      · exact h
    have h := continueFlow_inv env msg userMsg S ack preMsgs hcomp
      (by simpa using haw) hr (by simp only [stepLen]; omega)
    exact ⟨h.1, by rw [h.2]; omega⟩
  · exact ⟨hSS, hnSS⟩

theorem handleTurn_inv (env : TurnEnv) (isFirst : Bool) (msg : String) (S0 : Onb)
    (h0 : OnbInv env.hasPrev S0) :
    OnbInv env.hasPrev (handleTurn env isFirst msg S0).stored ∧
    S0.step ≤ (handleTurn env isFirst msg S0).stored.step := by
  rw [handleTurn]
  split_ifs with h1 h2 h3
  -- the auto-started first question
  · obtain ⟨hf1, hf2, hf3, hf4, hf5, hf6⟩ := h1
    simp only [Bool.not_eq_true] at hf2
    rw [firstQuestionOut]
    refine ⟨⟨Nat.zero_le _, ?_, ?_⟩, le_of_eq hf4⟩
    · intro hco
      exact absurd hco (by simp [hf2])
    · intro _
      exact ⟨Nat.zero_le _, hf2⟩
  -- quiz already done and shown: nothing written
  · exact ⟨h0, le_refl _⟩
  -- pending registration confirmation
  · rw [regConfFlow]
    have hrc := h0.2.2 h3
    split_ifs with hy hn
    · refine ⟨⟨h0.1, ?_, ?_⟩, le_refl _⟩
      · intro hco
        exact absurd hco (by simp [loadOnb, hrc.2])
      · intro hco
        exact absurd hco (by simp)
    · have h21 := ordered_steps_length_ge S0.responses env.hasPrev false
      have hS1 : OnbInv env.hasPrev (regNoState S0) := by
        refine ⟨?_, ?_, ?_⟩
        · simp only [regNoState, loadOnb, stepLen]
          have h1 := hrc.1
          omega
        · intro hco
          exact absurd hco (by simp [regNoState, loadOnb, hrc.2])
        · intro hco
          exact absurd hco (by simp [regNoState, loadOnb])
      have h := mainFlow_inv env msg ⟨"user", msg⟩ (regNoState S0) regNoAck
        [⟨"user", msg⟩] (regNoState S0) S0.step hS1 rfl hS1
        (by simp [regNoState, loadOnb]) (by simp [regNoState, loadOnb])
      exact h
    · exact ⟨h0, le_refl _⟩
  -- the main flow
  · have hr : (loadOnb S0).awaiting_registration_confirmation = false := by
      simpa using h3
    exact mainFlow_inv env msg ⟨"user", msg⟩ (loadOnb S0) "" [] S0 S0.step
      h0 hr h0 (le_refl _) (le_refl _)

/-- One observable `handle_message` transition between stored metadata
values. -/
def TurnStep (env : TurnEnv) (S0 S1 : Onb) : Prop :=
  ∃ isFirst msg, S1 = (handleTurn env isFirst msg S0).stored

/-- Every stored state of one interview (reachable from a fresh session by
`handle_message` calls) satisfies the invariant. -/
theorem reachable_inv (env : TurnEnv) (R0 : Resps) (S : Onb)
    (h : Relation.ReflTransGen (TurnStep env) (initOnb R0) S) :
    OnbInv env.hasPrev S := by
  induction h with
  | refl =>
    exact ⟨Nat.zero_le _, fun hco => absurd hco (by simp [initOnb]),
      fun hco => absurd hco (by simp [initOnb])⟩
  | tail hab hbc ih =>
    obtain ⟨isF, m, rfl⟩ := hbc
    exact (handleTurn_inv env isF m _ ih).1

/-- C6 — State-machine invariant over successive `handle_message` turns of an
interview: across each stored-metadata transition of a reachable state, the
step cursor never decreases, never exceeds the length of `_ordered_steps` for
the stored responses, and `awaiting_answer` is false whenever `complete` is
true. -/
theorem claim_C6_state_invariant (env : TurnEnv) (R0 : Resps) (S0 S1 : Onb)
    (hreach : Relation.ReflTransGen (TurnStep env) (initOnb R0) S0)
    (hstep : TurnStep env S0 S1) :
    S0.step ≤ S1.step ∧
    S1.step ≤ (ordered_steps S1.responses env.hasPrev false).length ∧
    (S1.complete = true → S1.awaiting_answer = false) := by
  obtain ⟨isF, m, rfl⟩ := hstep
  have h0 := reachable_inv env R0 S0 hreach
  have h1 := handleTurn_inv env isF m S0 h0
  exact ⟨h1.2, h1.1.1, fun hco => (h1.1.2.1 hco).1⟩

/-- A turn environment with inert collaborators, for exercising the turn
function on concrete inputs. -/
def plainEnv : TurnEnv :=
  { hasPrev := false, userIdPresent := false,
    search := fun _ _ _ _ => [],
    buildPrompt := fun _ _ => "",
    friendlyQuestion := fun _ _ _ _ _ => "q",
    acknowledgment := fun _ _ _ => "",
    questionByKey := fun _ _ _ => none,
    formatRecs := fun _ _ _ _ _ _ => "recommendations",
    majorConcernSame := fun _ => false,
    dbPrevConcerns := [], dbPrevProducts := [],
    prevOverlapQuestion := fun _ _ => "",
    prevConcernQuestion := fun _ => "",
    aiReply := "ai" }

/-- Closed witness for `claim_C6_state_invariant`: one concrete turn from a
fresh session. -/
theorem claim_C6_state_invariant_witness :
    Relation.ReflTransGen (TurnStep plainEnv) (initOnb []) (initOnb []) ∧
    TurnStep plainEnv (initOnb []) ((handleTurn plainEnv false "hello" (initOnb [])).stored) ∧
    ((initOnb []).step ≤ ((handleTurn plainEnv false "hello" (initOnb [])).stored).step ∧
     ((handleTurn plainEnv false "hello" (initOnb [])).stored).step ≤
       (ordered_steps ((handleTurn plainEnv false "hello" (initOnb [])).stored).responses
         plainEnv.hasPrev false).length ∧
     (((handleTurn plainEnv false "hello" (initOnb [])).stored).complete = true →
      ((handleTurn plainEnv false "hello" (initOnb [])).stored).awaiting_answer = false)) :=
  ⟨Relation.ReflTransGen.refl, ⟨false, "hello", rfl⟩,
   claim_C6_state_invariant plainEnv [] (initOnb [])
     ((handleTurn plainEnv false "hello" (initOnb [])).stored)
     Relation.ReflTransGen.refl ⟨false, "hello", rfl⟩⟩

set_option maxHeartbeats 1000000 in
/-- C5 — Validation idempotence: when the awaited answer is rejected by the
validator, the turn writes back a state with the same responses map and the
same step cursor, and replies with the validator's error message (the same
field will be asked again). -/
theorem claim_C5_validation_idempotence (env : TurnEnv) (msg : String) (S0 : Onb)
    (hnc : S0.complete = false)
    (hreg : S0.awaiting_registration_confirmation = false)
    (haw : S0.awaiting_answer = true)
    (hlt : S0.step < (ordered_steps S0.responses env.hasPrev false).length)
    (hval : (validate_response env.questionByKey
      ((ordered_steps S0.responses env.hasPrev false).getD S0.step "")
      (pyStrip msg) S0.responses).1 = false) :
    (handleTurn env false msg S0).stored.responses = S0.responses ∧
    (handleTurn env false msg S0).stored.step = S0.step ∧
    (handleTurn env false msg S0).reply = some ⟨"assistant",
      (validate_response env.questionByKey
        ((ordered_steps S0.responses env.hasPrev false).getD S0.step "")
        (pyStrip msg) S0.responses).2.2⟩ := by
  rw [handleTurn]
  rw [if_neg (by simp), if_neg (by simp [loadOnb, hnc]),
    if_neg (by simp [loadOnb, hreg]), mainFlow]
  rw [if_pos (show (loadOnb S0).step <
      (ordered_steps (loadOnb S0).responses env.hasPrev false).length from hlt)]
  rw [if_pos (show (loadOnb S0).awaiting_answer = true from haw)]
  rw [validateFlow, vfGo2]
  split_ifs with h
  · simp [loadOnb]
  all_goals simp only [loadOnb] at h
  all_goals exact absurd hval h

/-- Closed witness for `claim_C5_validation_idempotence`: an empty name
answer is rejected and the state stands still. -/
theorem claim_C5_validation_idempotence_witness :
    ({ initOnb [] with awaiting_answer := true } : Onb).complete = false ∧
    ({ initOnb [] with awaiting_answer := true } : Onb).awaiting_registration_confirmation = false ∧
    ({ initOnb [] with awaiting_answer := true } : Onb).awaiting_answer = true ∧
    ({ initOnb [] with awaiting_answer := true } : Onb).step <
      (ordered_steps ({ initOnb [] with awaiting_answer := true } : Onb).responses
        plainEnv.hasPrev false).length ∧
    (validate_response plainEnv.questionByKey
      ((ordered_steps ({ initOnb [] with awaiting_answer := true } : Onb).responses
        plainEnv.hasPrev false).getD ({ initOnb [] with awaiting_answer := true } : Onb).step "")
      (pyStrip "") ({ initOnb [] with awaiting_answer := true } : Onb).responses).1 = false ∧
    ((handleTurn plainEnv false "" { initOnb [] with awaiting_answer := true }).stored.responses
       = ({ initOnb [] with awaiting_answer := true } : Onb).responses ∧
     (handleTurn plainEnv false "" { initOnb [] with awaiting_answer := true }).stored.step
       = ({ initOnb [] with awaiting_answer := true } : Onb).step ∧
     (handleTurn plainEnv false "" { initOnb [] with awaiting_answer := true }).reply
       = some ⟨"assistant", (validate_response plainEnv.questionByKey
           ((ordered_steps ({ initOnb [] with awaiting_answer := true } : Onb).responses
             plainEnv.hasPrev false).getD
             ({ initOnb [] with awaiting_answer := true } : Onb).step "")
           (pyStrip "") ({ initOnb [] with awaiting_answer := true } : Onb).responses).2.2⟩) :=
  ⟨rfl, rfl, rfl, by decide, rfl,
   claim_C5_validation_idempotence plainEnv "" { initOnb [] with awaiting_answer := true }
     rfl rfl rfl (by decide) rfl⟩

set_option maxHeartbeats 1000000 in
/-- C2 — Medical-treatment early termination: when the awaited field is
`medical_treatment` and the answer validates, the stored onboarding state is
marked complete (and no longer awaiting), recommendations are generated
synchronously and — when products were found — the formatted recommendation
message is appended to the session's messages, yet the returned reply is
`none`. -/
theorem claim_C2_medical_termination (env : TurnEnv) (msg : String) (S0 : Onb)
    (hnc : S0.complete = false)
    (hreg : S0.awaiting_registration_confirmation = false)
    (haw : S0.awaiting_answer = true)
    (hlt : S0.step < (ordered_steps S0.responses env.hasPrev false).length)
    (hfld : (ordered_steps S0.responses env.hasPrev false).getD S0.step ""
      = "medical_treatment")
    (hval : (validate_response env.questionByKey "medical_treatment"
      (pyStrip msg) S0.responses).1 = true) :
    (handleTurn env false msg S0).stored.complete = true ∧
    (handleTurn env false msg S0).stored.awaiting_answer = false ∧
    (handleTurn env false msg S0).stored.recommendations_shown = true ∧
    (handleTurn env false msg S0).reply = none ∧
    ((recommendProducts env (save_response "medical_treatment"
        (validate_response env.questionByKey "medical_treatment"
          (pyStrip msg) S0.responses).2.1 S0.responses) [] none).1 = [] →
      (handleTurn env false msg S0).appended = [⟨"user", msg⟩]) ∧
    ((recommendProducts env (save_response "medical_treatment"
        (validate_response env.questionByKey "medical_treatment"
          (pyStrip msg) S0.responses).2.1 S0.responses) [] none).1 ≠ [] →
      (handleTurn env false msg S0).appended = [⟨"user", msg⟩,
        ⟨"assistant", env.formatRecs
          (recommendProducts env (save_response "medical_treatment"
            (validate_response env.questionByKey "medical_treatment"
              (pyStrip msg) S0.responses).2.1 S0.responses) [] none).1
          (save_response "medical_treatment"
            (validate_response env.questionByKey "medical_treatment"
              (pyStrip msg) S0.responses).2.1 S0.responses)
          (recommendProducts env (save_response "medical_treatment"
            (validate_response env.questionByKey "medical_treatment"
              (pyStrip msg) S0.responses).2.1 S0.responses) [] none).2
          none [] []⟩]) := by
  rw [handleTurn]
  rw [if_neg (by simp), if_neg (by simp [loadOnb, hnc]),
    if_neg (by simp [loadOnb, hreg]), mainFlow]
  rw [if_pos (show (loadOnb S0).step <
      (ordered_steps (loadOnb S0).responses env.hasPrev false).length from hlt)]
  rw [if_pos (show (loadOnb S0).awaiting_answer = true from haw)]
  rw [validateFlow, vfGo2]
  split_ifs with h1 h2 h3
  · simp only [loadOnb] at h1
    rw [hfld, hval] at h1
    exact absurd h1 (by decide)
  · simp only [loadOnb] at h2
    rw [hfld] at h2
    exact absurd h2.1 (by decide)
  · simp only [loadOnb]
    rw [hfld]
    rw [medicalFlow]
    rw [vfNext, if_neg (by decide)]
    simp only [vfSaved, loadOnb, medicalRecMsgs]
    refine ⟨trivial, trivial, trivial, trivial, ?_, ?_⟩
    · intro hemp
      rw [if_pos (by simp [hemp])]
      rfl
    · intro hne
      rw [if_neg (by simp [hne])]
      rfl
  · simp only [loadOnb] at h3
    exact absurd hfld h3

def c2state : Onb := { initOnb [] with step := 27, awaiting_answer := true }

/-- Closed witness for `claim_C2_medical_termination`: a fresh interview at
the final `medical_treatment` question answered "yes". -/
theorem claim_C2_medical_termination_witness :
    c2state.complete = false ∧
    c2state.awaiting_registration_confirmation = false ∧
    c2state.awaiting_answer = true ∧
    c2state.step < (ordered_steps c2state.responses plainEnv.hasPrev false).length ∧
    (ordered_steps c2state.responses plainEnv.hasPrev false).getD c2state.step ""
      = "medical_treatment" ∧
    (validate_response plainEnv.questionByKey "medical_treatment"
      (pyStrip "yes") c2state.responses).1 = true ∧
    ((handleTurn plainEnv false "yes" c2state).stored.complete = true ∧
     (handleTurn plainEnv false "yes" c2state).stored.awaiting_answer = false ∧
     (handleTurn plainEnv false "yes" c2state).stored.recommendations_shown = true ∧
     (handleTurn plainEnv false "yes" c2state).reply = none) :=
  ⟨rfl, rfl, rfl, by decide, by decide, rfl,
   (claim_C2_medical_termination plainEnv "yes" c2state rfl rfl rfl (by decide)
     (by decide) rfl).1,
   (claim_C2_medical_termination plainEnv "yes" c2state rfl rfl rfl (by decide)
     (by decide) rfl).2.1,
   (claim_C2_medical_termination plainEnv "yes" c2state rfl rfl rfl (by decide)
     (by decide) rfl).2.2.1,
   (claim_C2_medical_termination plainEnv "yes" c2state rfl rfl rfl (by decide)
     (by decide) rfl).2.2.2.1⟩

end Viteezy